import Mathlib

/-!
# gopen: verification development

Shallow embedding of the `gopen` repository (`boot.go` and the programs under
`examples/`) together with the properties established about it.

* `boot.go` is embedded as an interleaving transition system: the main routine
  `Run` and the two goroutines `logicLoop` and `renderLoop` each advance by one
  atomic action whenever an arbitrary scheduler picks them.  `time.Sleep` is an
  action without effect, so every relative timing of the two loops is covered
  by some schedule.
* The graphics examples call into external bindings (OpenGL, GLFW, Metal).  A
  binding is a record of answers (`GLBinding`, `MetalEnv`, ...) and the example code
  is embedded over it; every call that matters is recorded in a trace.
-/

namespace Gopen

/-! ## boot.go -/

/-- A line written to standard output by `boot.go`. -/
inductive Line
  | hello
  | logicIter (i : Nat)
  | renderIter (i : Nat)
  | finished
  deriving DecidableEq, Repr

/-- The text `fmt.Println` writes for a line. -/
def Line.text : Line → String
  | .hello => "Hello Gopen!"
  | .logicIter i => "Logic Loop Iteration: " ++ toString i
  | .renderIter i => "Render Loop Iteration: " ++ toString i
  | .finished => "Test Loop Finished"

/-- The index carried by a line of `logicLoop`. -/
def logicIdx : Line → Option Nat
  | .logicIter i => some i
  | _ => none

/-- The index carried by a line of `renderLoop`. -/
def renderIdx : Line → Option Nat
  | .renderIter i => some i
  | _ => none

/-- Program points of `for i := 0; i < 5; i++ { Println(..., i); Sleep(d) }`
under `defer wg.Done()`. -/
inductive LoopPc
  | test (i : Nat)   -- about to evaluate `i < 5`
  | print (i : Nat)  -- about to run `fmt.Println(..., i)`
  | sleep (i : Nat)  -- about to run `time.Sleep(d)`, then `i++`
  | done             -- loop left, about to run the deferred `wg.Done()`
  | exited           -- goroutine has returned
  deriving DecidableEq, Repr

/-- What one atomic action of a loop goroutine does to the rest of the world. -/
inductive Act
  | tau
  | print (l : Line)
  | sleep (ms : Nat)
  | wgDone
  deriving DecidableEq, Repr

/-- One atomic action of a loop goroutine that prints `mk i` and sleeps
`sleepMs` milliseconds in each iteration; `none` once it has returned. -/
def loopStep (sleepMs : Nat) (mk : Nat → Line) : LoopPc → Option (LoopPc × Act)
  | .test i => if i < 5 then some (.print i, .tau) else some (.done, .tau)
  | .print i => some (.sleep i, .print (mk i))
  | .sleep i => some (.test (i + 1), .sleep sleepMs)
  | .done => some (.exited, .wgDone)
  | .exited => none

/-- Body of `logicLoop`: prints "Logic Loop Iteration: i", sleeps one second. -/
def logicLoop : LoopPc → Option (LoopPc × Act) := loopStep 1000 Line.logicIter

/-- Body of `renderLoop`: prints "Render Loop Iteration: i", sleeps 500 ms. -/
def renderLoop : LoopPc → Option (LoopPc × Act) := loopStep 500 Line.renderIter

/-- Program points of `Run`. -/
inductive MainPc
  | hello     -- about to run `fmt.Println("Hello Gopen!")`
  | add       -- about to run `wg.Add(2)`
  | goLogic   -- about to run `go logicLoop(&wg)`
  | goRender  -- about to run `go renderLoop(&wg)`
  | wait      -- blocked in / about to return from `wg.Wait()`
  | finish    -- about to run `fmt.Println("Test Loop Finished")`
  | returned
  deriving DecidableEq, Repr

/-- Global state of the demo: the program point of `Run`, the two goroutines
(`none` before the `go` statement that spawns them), the counter of the
`sync.WaitGroup`, and standard output in the order it was written. -/
structure St where
  mainPc : MainPc
  logic : Option LoopPc
  render : Option LoopPc
  wg : Int
  out : List Line
  deriving DecidableEq, Repr

/-- State at the call of `Run`. -/
def St.init : St :=
  { mainPc := .hello, logic := none, render := none, wg := 0, out := [] }

/-- The three threads of control. -/
inductive Tid
  | main | logic | render
  deriving DecidableEq, Repr

/-- Effect of a goroutine's action on the shared state: `Println` appends to
standard output, `wg.Done()` decrements the counter. -/
def applyAct (s : St) : Act → St
  | .tau => s
  | .print l => { s with out := s.out ++ [l] }
  | .sleep _ => s
  | .wgDone => { s with wg := s.wg - 1 }

/-- One atomic action of `Run`; `none` when it is blocked in `wg.Wait()` (the
counter is not zero) or has returned. -/
def Run (s : St) : Option St :=
  match s.mainPc with
  | .hello => some { s with out := s.out ++ [Line.hello], mainPc := .add }
  | .add => some { s with wg := s.wg + 2, mainPc := .goLogic }
  | .goLogic => some { s with logic := some (.test 0), mainPc := .goRender }
  | .goRender => some { s with render := some (.test 0), mainPc := .wait }
  | .wait => if s.wg = 0 then some { s with mainPc := .finish } else none
  | .finish => some { s with out := s.out ++ [Line.finished], mainPc := .returned }
  | .returned => none

/-- One atomic action of the chosen thread; `none` when it cannot move. -/
def step (t : Tid) (s : St) : Option St :=
  match t with
  | .main => Run s
  | .logic =>
    match s.logic with
    | none => none
    | some pc =>
      match logicLoop pc with
      | none => none
      | some (pc', a) => some (applyAct { s with logic := some pc' } a)
  | .render =>
    match s.render with
    | none => none
    | some pc =>
      match renderLoop pc with
      | none => none
      | some (pc', a) => some (applyAct { s with render := some pc' } a)

/-- Execution under a schedule: the scheduler names a thread at each tick; a
thread that cannot move leaves the state as it is. -/
def run : List Tid → St → St
  | [], s => s
  | t :: ts, s => run ts ((step t s).getD s)

/-- A loop goroutine run on its own for at most `fuel` actions: the visible
actions it performed (lines printed, sleeps, `wg.Done()`), in order, and the
program point it reached. -/
def loopRun (body : LoopPc → Option (LoopPc × Act)) : Nat → LoopPc → List Act × LoopPc
  | 0, pc => ([], pc)
  | fuel + 1, pc =>
    match body pc with
    | none => ([], pc)
    | some (pc', a) =>
      let r := loopRun body fuel pc'
      match a with
      | .tau => r
      | _ => (a :: r.1, r.2)

/-- A schedule under which the demo runs to its end: `Run` up to `wg.Wait()`,
then the two loops taking turns, then `Run` again. -/
def fairSchedule : List Tid :=
  [.main, .main, .main, .main] ++
  (List.replicate 17 [Tid.logic, Tid.render]).flatten ++
  [.main, .main]

/-- The values of the wait-group counter along an execution: in the initial
state and after each tick of the schedule. -/
def counterHistory : List Tid → St → List Int
  | [], s => [s.wg]
  | t :: ts, s => s.wg :: counterHistory ts ((step t s).getD s)

/-- A list of counter values without its immediate repetitions. -/
def changes : List Int → List Int
  | [] => []
  | [a] => [a]
  | a :: b :: l => if a = b then changes (b :: l) else a :: changes (b :: l)

/-- How far the wait-group counter has got on its way 0, 2, 1, 0: 0 before
`wg.Add(2)`, then 1 plus the number of goroutines that have returned. -/
def phase (s : St) : Nat :=
  match s.mainPc with
  | .hello => 0
  | .add => 0
  | _ =>
    1 + (if s.logic = some .exited then 1 else 0) + (if s.render = some .exited then 1 else 0)

/-- Number of iterations whose line a goroutine has printed so far. -/
def progress : Option LoopPc → Nat
  | none => 0
  | some (.test i) => i
  | some (.print i) => i
  | some (.sleep i) => i + 1
  | some .done => 5
  | some .exited => 5

/-- The loop variable is within the bounds its program point implies. -/
def pcOk : Option LoopPc → Prop
  | some (.test i) => i ≤ 5
  | some (.print i) => i < 5
  | some (.sleep i) => i < 5
  | _ => True

/-- Number of `wg.Done()` calls a goroutine has made (0 or 1). -/
def doneCalls : Option LoopPc → Int
  | some .exited => 1
  | _ => 0

/-- Number of `wg.Add` units `Run` has contributed so far. -/
def added : MainPc → Int
  | .hello => 0
  | .add => 0
  | _ => 2

/-- Invariant of every reachable state of the demo. -/
structure Inv (s : St) : Prop where
  logicOut : s.out.filterMap logicIdx = List.range (progress s.logic)
  renderOut : s.out.filterMap renderIdx = List.range (progress s.render)
  logicOk : pcOk s.logic
  renderOk : pcOk s.render
  counter : s.wg = added s.mainPc - doneCalls s.logic - doneCalls s.render
  logicSpawn : (s.mainPc = .hello ∨ s.mainPc = .add ∨ s.mainPc = .goLogic) → s.logic = none
  renderSpawn : (s.mainPc = .hello ∨ s.mainPc = .add ∨ s.mainPc = .goLogic ∨
    s.mainPc = .goRender) → s.render = none
  afterWait : (s.mainPc = .finish ∨ s.mainPc = .returned) →
    s.logic = some .exited ∧ s.render = some .exited
  notYet : s.mainPc ≠ .returned → Line.finished ∉ s.out
  last : s.mainPc = .returned → ∃ pre, s.out = pre ++ [Line.finished] ∧ Line.finished ∉ pre

/-! ## examples/gl-rainbow-triangle

The OpenGL binding (`github.com/go-gl/gl`) is outside the repository.  Its
answers are the fields of `GLBinding`; the calls the example makes that only change
the binding's state are recorded as `GLCall`s. -/

/-- How a Go function call ends: it returns a value or it panics. -/
inductive Outcome (α : Type)
  | ret (a : α)
  | panic (msg : String)
  deriving DecidableEq, Repr

/-- Apply a function to the value a call returns. -/
def Outcome.map {α β : Type} (f : α → β) : Outcome α → Outcome β
  | .ret a => .ret (f a)
  | .panic p => .panic p

/-- Size of a `float32` in bytes (`const float32Size = 4`). -/
def float32Size : Nat := 4

/-- Value of `gl.FALSE`. -/
def GL_FALSE : Int := 0
/-- Value of `gl.VERTEX_SHADER`. -/
def GL_VERTEX_SHADER : Nat := 0x8B31
/-- Value of `gl.FRAGMENT_SHADER`. -/
def GL_FRAGMENT_SHADER : Nat := 0x8B30
/-- Value of `gl.ARRAY_BUFFER`. -/
def GL_ARRAY_BUFFER : Nat := 0x8892
/-- Value of `gl.STATIC_DRAW`. -/
def GL_STATIC_DRAW : Nat := 0x88E4
/-- Value of `gl.FLOAT`. -/
def GL_FLOAT : Nat := 0x1406
/-- Value of `gl.TRIANGLES`. -/
def GL_TRIANGLES : Nat := 0x0004
/-- Value of `gl.COLOR_BUFFER_BIT`. -/
def GL_COLOR_BUFFER_BIT : Nat := 0x4000
/-- Value of `gl.DEPTH_BUFFER_BIT`. -/
def GL_DEPTH_BUFFER_BIT : Nat := 0x0100

/-- Conversion to `int32`: the value modulo 2^32, read as a signed number. -/
def toInt32 (x : Int) : Int := (x + 2 ^ 31) % 2 ^ 32 - 2 ^ 31

/-- Answers of the OpenGL binding observed by the example.  A shader is
identified by its type and source. -/
structure GLBinding where
  /-- Handle returned by `gl.CreateShader(shaderType)`. -/
  createShader : Nat → Nat
  /-- Value of `COMPILE_STATUS` read by `gl.GetShaderiv` after `gl.CompileShader`. -/
  compileStatus : Nat → String → Int
  /-- Value of `INFO_LOG_LENGTH` read by `gl.GetShaderiv`. -/
  infoLogLength : Nat → String → Int
  /-- The characters of the shader's information log (no terminator). -/
  infoLog : Nat → String → List Char
  /-- Handle returned by `gl.CreateProgram()`. -/
  createProgram : Nat
  /-- Value of `LINK_STATUS` of the program after `gl.LinkProgram`, given the sources of
  the attached vertex and fragment shader. -/
  linkStatus : String → String → Int
  /-- Name written by `gl.GenBuffers(1, &vbo)`. -/
  genBuffer : Nat
  /-- Name written by `gl.GenVertexArrays(1, &vao)`. -/
  genVertexArray : Nat

/-- State-changing calls into the OpenGL binding, with their arguments. -/
inductive GLCall
  | attachShader (program shader : Nat)
  | linkProgram (program : Nat)
  | deleteShader (shader : Nat)
  | genBuffers (n : Nat)
  | bindBuffer (target buffer : Nat)
  | bufferData (target size usage : Nat)
  | genVertexArrays (n : Nat)
  | bindVertexArray (vao : Nat)
  | enableVertexAttribArray (index : Nat)
  | vertexAttribPointerWithOffset (index size xtype : Nat) (normalized : Bool)
      (stride offset : Nat)
  | clear (mask : Nat)
  | useProgram (program : Nat)
  | drawArrays (mode : Nat) (first count : Int)
  deriving DecidableEq, Repr

/-- Result of `strings.Repeat("\x00", n)`: panics on a negative count. -/
def repeatNul (n : Int) : Outcome (List Char) :=
  if n < 0 then .panic "strings: negative Repeat count"
  else .ret (List.replicate n.toNat '\x00')

/-- Result of `gl.Str(s)`: the binding panics unless `s` ends in a NUL. -/
def glStr (s : List Char) : Outcome Unit :=
  if s.getLast? = some '\x00' then .ret ()
  else .panic ("str argument missing null terminator: " ++ String.mk s)

/-- Effect of `gl.GetShaderInfoLog(shader, bufSize, nil, buf)` on the buffer
`buf`: for a positive `bufSize` the binding stores at most `bufSize - 1`
characters of the information log followed by a NUL terminator; the rest of
the buffer, whose length does not change, is left as it was. -/
def getShaderInfoLog (text : List Char) (bufSize : Int) (buf : List Char) : List Char :=
  if bufSize ≤ 0 then buf
  else
    let w := text.take (bufSize.toNat - 1) ++ ['\x00']
    (w ++ buf.drop w.length).take buf.length

/-- Embedding of `compileShader`: `.panic` is a panic, `.ret (h, e)` the
returned pair of handle and error (`none` for `nil`). -/
def compileShader (gl : GLBinding) (source : String) (shaderType : Nat) :
    Outcome (Nat × Option String) :=
  let shader := gl.createShader shaderType
  let status := gl.compileStatus shaderType source
  if status = GL_FALSE then
    let logLength := gl.infoLogLength shaderType source
    match repeatNul (toInt32 (logLength + 1)) with
    | .panic p => .panic p
    | .ret buf =>
      match glStr buf with
      | .panic p => .panic p
      | .ret () =>
        let log := getShaderInfoLog (gl.infoLog shaderType source) logLength buf
        .ret (0, some ("failed to compile " ++ source ++ ": " ++ String.mk log))
  else .ret (shader, none)

/-- Embedding of `newProgram`: `.panic` is a panic (with the error's message),
`.ret` the returned program handle together with the calls made on it. -/
def newProgram (gl : GLBinding) (vertexShaderSource fragmentShaderSource : String) :
    Outcome (Nat × List GLCall) :=
  match compileShader gl vertexShaderSource GL_VERTEX_SHADER with
  | .panic p => .panic p
  | .ret (_, some err) => .panic err
  | .ret (vertexShader, none) =>
    match compileShader gl fragmentShaderSource GL_FRAGMENT_SHADER with
    | .panic p => .panic p
    | .ret (_, some err) => .panic err
    | .ret (fragmentShader, none) =>
      let prog := gl.createProgram
      .ret (prog,
        [.attachShader prog vertexShader, .attachShader prog fragmentShader,
         .linkProgram prog, .deleteShader vertexShader, .deleteShader fragmentShader])

/-- The vertex data `triangle`: three rows of X, Y, Z, R, G, B. -/
def triangle : List ℚ :=
  [0, 0.5, 0, 1, 0, 0,
   -0.5, -0.5, 0, 0, 1, 0,
   0.5, -0.5, 0, 0, 0, 1]

/-- Result of `gl.Ptr(points)` for a slice: the binding takes the address of
element 0 through `reflect`, which panics when the slice is empty or nil. -/
def glPtr (points : List ℚ) : Outcome Unit :=
  match points with
  | [] => .panic "reflect: slice index out of range"
  | _ :: _ => .ret ()

/-- Embedding of `makeVao`: the returned vertex array name, or the panic, and
the calls made.  The argument `gl.Ptr(points)` is evaluated before
`gl.BufferData` is called, so a panic in it comes after `gl.GenBuffers` and
`gl.BindBuffer` only. -/
def makeVao (gl : GLBinding) (points : List ℚ) : Outcome Nat × List GLCall :=
  let vbo := gl.genBuffer
  match glPtr points with
  | .panic p => (.panic p, [.genBuffers 1, .bindBuffer GL_ARRAY_BUFFER vbo])
  | .ret () =>
    let vao := gl.genVertexArray
    (.ret vao,
      [.genBuffers 1, .bindBuffer GL_ARRAY_BUFFER vbo,
       .bufferData GL_ARRAY_BUFFER (4 * points.length) GL_STATIC_DRAW,
       .genVertexArrays 1, .bindVertexArray vao,
       .enableVertexAttribArray 0,
       .vertexAttribPointerWithOffset 0 3 GL_FLOAT false (6 * float32Size) 0,
       .enableVertexAttribArray 1,
       .vertexAttribPointerWithOffset 1 3 GL_FLOAT false (6 * float32Size)
         (3 * float32Size)])

/-- Embedding of `drawTriangle`: the calls it makes. -/
def drawTriangle (vao program : Nat) : List GLCall :=
  [.clear (GL_COLOR_BUFFER_BIT ||| GL_DEPTH_BUFFER_BIT),
   .useProgram program,
   .bindVertexArray vao,
   .drawArrays GL_TRIANGLES 0 (toInt32 ((triangle.length / 3 : Nat) : Int))]

/-- A binding whose shader compiler rejects every source with the three-letter
information log "bad" (length 4 with its terminator). -/
def rejectingGL : GLBinding :=
  { createShader := fun _ => 7
    compileStatus := fun _ _ => 0
    infoLogLength := fun _ _ => 4
    infoLog := fun _ _ => ['b', 'a', 'd']
    createProgram := 9
    linkStatus := fun _ _ => 0
    genBuffer := 1
    genVertexArray := 1 }

/-- A binding whose shader compiler accepts every source and whose linker
rejects every program. -/
def unlinkableGL : GLBinding :=
  { createShader := fun t => if t = GL_VERTEX_SHADER then 1 else 2
    compileStatus := fun _ _ => 1
    infoLogLength := fun _ _ => 0
    infoLog := fun _ _ => []
    createProgram := 3
    linkStatus := fun _ _ => 0
    genBuffer := 1
    genVertexArray := 1 }

/-- The `bufferData` sizes among a list of calls. -/
def uploadedBytes : List GLCall → List Nat
  | [] => []
  | .bufferData _ size _ :: cs => size :: uploadedBytes cs
  | _ :: cs => uploadedBytes cs

/-- The vertex attributes declared among a list of calls, each as
(index, number of floats, stride in bytes, offset in bytes). -/
def declaredAttribs : List GLCall → List (Nat × Nat × Nat × Nat)
  | [] => []
  | .vertexAttribPointerWithOffset i n _ _ stride off :: cs =>
    (i, n, stride, off) :: declaredAttribs cs
  | _ :: cs => declaredAttribs cs

/-- The vertex counts of the `drawArrays` calls among a list of calls. -/
def drawCounts : List GLCall → List Int
  | [] => []
  | .drawArrays _ _ count :: cs => count :: drawCounts cs
  | _ :: cs => drawCounts cs

/-! ## Render loops and the Metal examples

The windowing and Metal bindings are outside `src/`; what they answer is the
environment.  Everything a program does to the outside is an `Ev`. -/

/-- Observable events of the graphics examples. -/
inductive Ev
  | println (s : String)
  | shouldClose (answer : Bool)
  | gl (c : GLCall)
  | pollEvents
  | swapBuffers
  | nextDrawable
  | makeCommandBuffer
  | makeRenderCommandEncoder
  | setRenderPipelineState
  | setVertexBuffer (index : Nat)
  | setVertexBytes (index : Nat)
  | setFragmentTexture (index : Nat)
  | drawIndexedPrimitives (indexCount : Nat)
  | drawPrimitives (vertexStart vertexCount : Nat)
  | endEncoding
  | presentDrawable
  | commit
  | frameSignal
  | windowDestroy
  | glfwTerminate
  deriving DecidableEq, Repr

/-- How far a routine got: it returned (with an error value, `none` for nil),
it panicked, or it is still in its loop when the window answers known so far
are used up. -/
inductive Ending
  | returned (err : Option String)
  | panicked (msg : String)
  | running
  deriving DecidableEq, Repr

/-- The loop `for !window.ShouldClose() { frame }`.  `answers` are the
successive answers of `window.ShouldClose()`; `frame k` gives the events of
iteration `k` and, when the iteration panics, the panic message. -/
def frameLoop (frame : Nat → List Ev × Option String) : Nat → List Bool → List Ev × Ending
  | _, [] => ([], .running)
  | _, true :: _ => ([.shouldClose true], .returned none)
  | k, false :: rest =>
    match frame k with
    | (evs, some p) => (.shouldClose false :: evs, .panicked p)
    | (evs, none) =>
      let r := frameLoop frame (k + 1) rest
      (.shouldClose false :: evs ++ r.1, r.2)

/-- Loop body of the OpenGL example's `main`:
`drawTriangle(vao, program); glfw.PollEvents(); window.SwapBuffers()`. -/
def glFrame (vao program : Nat) : List Ev × Option String :=
  ((drawTriangle vao program).map Ev.gl ++ [.pollEvents, .swapBuffers], none)

/-- Loop body of the Metal examples' `run`: `drawableErr` is the error of
`ml.NextDrawable()` (the body panics on it), `textures` the fragment-texture
bindings and `draw` the draw call of the example. -/
def metalFrame (textures : List Ev) (draw : Ev) (drawableErr : Option String) :
    List Ev × Option String :=
  match drawableErr with
  | some e => ([.nextDrawable], some e)
  | none =>
    ([.nextDrawable, .makeCommandBuffer, .makeRenderCommandEncoder,
      .setRenderPipelineState, .setVertexBuffer 0, .setVertexBytes 1, .setVertexBytes 2] ++
     textures ++
     [draw, .endEncoding, .presentDrawable, .commit, .frameSignal, .pollEvents], none)

/-- The `indices` array of mtl-cube. -/
def indices : List Nat := [0, 1, 2]

/-- Loop body of mtl-cube. -/
def cubeFrame (drawableErr : Option String) : List Ev × Option String :=
  metalFrame [.setFragmentTexture 0] (.drawIndexedPrimitives indices.length) drawableErr

/-- Loop body of mtl-movingtriangle. -/
def movingTriangleFrame (drawableErr : Option String) : List Ev × Option String :=
  metalFrame [] (.drawPrimitives 0 3) drawableErr

/-- Is the event a draw call. -/
def Ev.isDraw : Ev → Bool
  | .gl (.drawArrays _ _ _) => true
  | .drawIndexedPrimitives _ => true
  | .drawPrimitives _ _ => true
  | _ => false

/-- Is the event a present or a buffer swap. -/
def Ev.isPresent : Ev → Bool
  | .swapBuffers => true
  | .presentDrawable => true
  | _ => false

/-- Is the event a frame signal sent to the FPS counter. -/
def Ev.isFrameSignal : Ev → Bool
  | .frameSignal => true
  | _ => false

/-- The answers of `window.ShouldClose()` in a trace, in order. -/
def closeAnswers : List Ev → List Bool
  | [] => []
  | .shouldClose b :: evs => b :: closeAnswers evs
  | _ :: evs => closeAnswers evs

/-- The draw calls, presents and frame signals of a trace, in order. -/
def drawsAndPresents (evs : List Ev) : List Ev :=
  evs.filter (fun e => e.isDraw || e.isPresent || e.isFrameSignal)

/-! ## Textures of mtl-cube

`imageToNRGBA` works on values of Go's standard `image` package, which is
outside the repository; the parts it uses are embedded after the package's
documented behaviour. -/

/-- Conversion to `int` (64 bits): the value modulo 2^64, read as a signed
number. -/
def toInt64 (x : Int) : Int := (x + 2 ^ 63) % 2 ^ 64 - 2 ^ 63

/-- An `image.Rectangle`: `Min` is `(minX, minY)`, `Max` is `(maxX, maxY)`. -/
structure Rectangle where
  minX : Int
  minY : Int
  maxX : Int
  maxY : Int
  deriving DecidableEq, Repr

/-- Embedding of `r.Dx()`: the width `Max.X - Min.X`. -/
def Rectangle.Dx (r : Rectangle) : Int := toInt64 (r.maxX - r.minX)

/-- Embedding of `r.Dy()`: the height `Max.Y - Min.Y`. -/
def Rectangle.Dy (r : Rectangle) : Int := toInt64 (r.maxY - r.minY)

/-- Embedding of `image.Rect(x0, y0, x1, y1)`: the coordinates are swapped where needed so
that the rectangle is well-formed. -/
def imageRect (x0 y0 x1 y1 : Int) : Rectangle :=
  { minX := if x0 > x1 then x1 else x0
    minY := if y0 > y1 then y1 else y0
    maxX := if x0 > x1 then x0 else x1
    maxY := if y0 > y1 then y0 else y1 }

/-- An `image.NRGBA`: the pixel bytes, the stride in bytes between vertically
adjacent pixels, and the bounds. -/
structure NRGBA where
  Pix : List Nat
  Stride : Int
  Rect : Rectangle
  deriving DecidableEq, Repr

/-- An `image.Image`, by dynamic type: a `*image.NRGBA`, or any other image,
given by its bounds and the colour at each point as converted by
`color.NRGBAModel` (R, G, B, A). -/
inductive Image
  | nrgba (img : NRGBA)
  | other (bounds : Rectangle) (colorAt : Int → Int → Nat × Nat × Nat × Nat)

/-- Embedding of `src.Bounds()`. -/
def Image.Bounds : Image → Rectangle
  | .nrgba img => img.Rect
  | .other bounds _ => bounds

/-- The helper `mul3NonNeg` of package `image`: the product `x*y*z`, or -1 if
an argument is negative or the product overflows an `int`. -/
def mul3NonNeg (x y z : Int) : Int :=
  if x < 0 ∨ y < 0 ∨ z < 0 then -1
  else if 2 ^ 64 ≤ x * y then -1
  else if 2 ^ 64 ≤ x * y * z then -1
  else if 2 ^ 63 ≤ x * y * z then -1
  else x * y * z

/-- The largest size in bytes the Go runtime accepts for one allocation on a
64-bit platform (48 bits of heap address). -/
def maxAlloc : Int := 2 ^ 48

/-- Result of `make([]uint8, n)`: a zeroed slice of `n` bytes; the runtime
panics when `n` is negative or above `maxAlloc`.  Exhaustion of the memory
actually available is not part of the embedding. -/
def makeBytes (n : Int) : Outcome (List Nat) :=
  if n < 0 ∨ maxAlloc < n then .panic "runtime error: makeslice: len out of range"
  else .ret (List.replicate n.toNat 0)

/-- Embedding of `image.NewNRGBA(r)`: a zeroed image with bounds `r`, stride
`4 * r.Dx()` and `4 * r.Dx() * r.Dy()` pixel bytes; it panics on negative or
huge dimensions, in `pixelBufferLength` or in `make`. -/
def NewNRGBA (r : Rectangle) : Outcome NRGBA :=
  let totalLength := mul3NonNeg 4 r.Dx r.Dy
  if totalLength < 0 then
    .panic "image: NewNRGBA Rectangle has huge or negative dimensions"
  else
    match makeBytes totalLength with
    | .panic p => .panic p
    | .ret pix => .ret { Pix := pix, Stride := toInt64 (4 * r.Dx), Rect := r }

/-- The pixel bytes `draw.Draw(dst, dst.Bounds(), src, b.Min, draw.Src)` stores
in a `w` by `h` image `dst` at the origin when the bounds `b` of `src` are
well-formed: row after row, four bytes per pixel, the pixel `(x, y)` of `dst`
taken from the point `b.Min + (x, y)` of `src`. -/
def drawnPix (w h : Nat) (colorAt : Int → Int → Nat × Nat × Nat × Nat) (b : Rectangle) :
    List Nat :=
  ((List.range h).map (fun (y : Nat) =>
    ((List.range w).map (fun (x : Nat) =>
      let c := colorAt (b.minX + (x : Int)) (b.minY + (y : Int))
      [c.1, c.2.1, c.2.2.1, c.2.2.2])).flatten)).flatten

/-- Embedding of `imageToNRGBA`.  A source of dynamic type `*image.NRGBA` is
returned as it is.  Otherwise a new image is made and the source drawn into
it; `draw.Draw` clips to the bounds of the source and draws nothing when they
are empty or not well-formed. -/
def imageToNRGBA : Image → Outcome NRGBA
  | .nrgba dst => .ret dst
  | .other b colorAt =>
    match NewNRGBA (imageRect 0 0 b.Dx b.Dy) with
    | .panic p => .panic p
    | .ret dst =>
      if b.minX < b.maxX ∧ b.minY < b.maxY then
        .ret { dst with Pix := drawnPix dst.Rect.Dx.toNat dst.Rect.Dy.toNat colorAt b }
      else .ret dst

/-- What the windowing and Metal bindings answer during one execution of a
Metal example.  A field of type `Option String` is the error a call returns
(`none` for nil). -/
structure MetalEnv where
  /-- Name of the default device. -/
  deviceName : String
  /-- Error of `mtl.CreateSystemDefaultDevice()`. -/
  createSystemDefaultDevice : Option String
  /-- Error of `glfw.Init()`. -/
  glfwInit : Option String
  /-- Error of `glfw.CreateWindow(...)`. -/
  createWindow : Option String
  /-- Error of `os.Open("diamond_ore.png")`. -/
  osOpen : Option String
  /-- Error of `image.Decode(imgFile)`. -/
  imageDecode : Option String
  /-- The image `image.Decode(imgFile)` returns. -/
  texture : Image
  /-- Error of `device.MakeLibrary(...)`. -/
  makeLibrary : Option String
  /-- Error of `lib.MakeFunction("VertexShader")`. -/
  makeVertexFunction : Option String
  /-- Error of `lib.MakeFunction("FragmentShader")`. -/
  makeFragmentFunction : Option String
  /-- Error of `device.MakeRenderPipelineState(rpld)`. -/
  makeRenderPipelineState : Option String
  /-- Successive answers of `window.ShouldClose()`. -/
  shouldClose : List Bool
  /-- Error of `ml.NextDrawable()` in iteration `k` of the render loop. -/
  nextDrawable : Nat → Option String

/-- How `main` ends: normally, in `log.Fatalln(err)`, in a panic, or not yet. -/
inductive Exit
  | ok
  | fatal (msg : String)
  | panic (msg : String)
  | running
  deriving DecidableEq, Repr

/-- The `main` of the three Metal programs:
`err := run(); if err != nil { log.Fatalln(err) }`. -/
def mainOf (r : List Ev × Ending) : Exit :=
  match r.2 with
  | .returned none => .ok
  | .returned (some e) => .fatal e
  | .panicked p => .panic p
  | .running => .running

namespace MtlMovingTriangle

/-- Embedding of `run` of mtl-movingtriangle: the events and how it ends.  The
deferred `window.Destroy()` and `glfw.Terminate()` run when `run` returns or
panics. -/
def run (env : MetalEnv) : List Ev × Ending :=
  match env.createSystemDefaultDevice with
  | some e => ([], .returned (some e))
  | none =>
  let t1 := [Ev.println ("Metal device: " ++ env.deviceName)]
  match env.glfwInit with
  | some e => (t1, .returned (some e))
  | none =>
  match env.createWindow with
  | some e => (t1 ++ [.glfwTerminate], .returned (some e))
  | none =>
  match env.makeLibrary with
  | some e => (t1 ++ [.windowDestroy, .glfwTerminate], .returned (some e))
  | none =>
  match env.makeVertexFunction with
  | some e => (t1 ++ [.windowDestroy, .glfwTerminate], .returned (some e))
  | none =>
  match env.makeFragmentFunction with
  | some e => (t1 ++ [.windowDestroy, .glfwTerminate], .returned (some e))
  | none =>
  match env.makeRenderPipelineState with
  | some e => (t1 ++ [.windowDestroy, .glfwTerminate], .returned (some e))
  | none =>
  match frameLoop (fun k => movingTriangleFrame (env.nextDrawable k)) 0 env.shouldClose with
  | (evs, .running) => (t1 ++ evs, .running)
  | (evs, fin) => (t1 ++ evs ++ [.windowDestroy, .glfwTerminate], fin)

/-- Embedding of `main` of mtl-movingtriangle. -/
def main (env : MetalEnv) : Exit := mainOf (run env)

end MtlMovingTriangle

namespace MtlCube

/-- Embedding of `run` of mtl-cube: as in mtl-movingtriangle, with the texture
loaded between the window callbacks and the shader compilation: the decoded
image goes through `imageToNRGBA`, and taking the address `&nrgba.Pix[0]`
panics when the pixel buffer is empty. -/
def run (env : MetalEnv) : List Ev × Ending :=
  match env.createSystemDefaultDevice with
  | some e => ([], .returned (some e))
  | none =>
  let t1 := [Ev.println ("Metal device: " ++ env.deviceName)]
  match env.glfwInit with
  | some e => (t1, .returned (some e))
  | none =>
  match env.createWindow with
  | some e => (t1 ++ [.glfwTerminate], .returned (some e))
  | none =>
  match env.osOpen with
  | some e =>
    (t1 ++ [.windowDestroy, .glfwTerminate],
      .returned (some ("texture \"diamond_ore.png\" not found on disk: " ++ e)))
  | none =>
  match env.imageDecode with
  | some e => (t1 ++ [.windowDestroy, .glfwTerminate], .returned (some e))
  | none =>
  match imageToNRGBA env.texture with
  | .panic p => (t1 ++ [.windowDestroy, .glfwTerminate], .panicked p)
  | .ret nrgba =>
  if nrgba.Pix.length = 0 then
    (t1 ++ [.windowDestroy, .glfwTerminate],
      .panicked "runtime error: index out of range [0] with length 0")
  else
  match env.makeLibrary with
  | some e => (t1 ++ [.windowDestroy, .glfwTerminate], .returned (some e))
  | none =>
  match env.makeVertexFunction with
  | some e => (t1 ++ [.windowDestroy, .glfwTerminate], .returned (some e))
  | none =>
  match env.makeFragmentFunction with
  | some e => (t1 ++ [.windowDestroy, .glfwTerminate], .returned (some e))
  | none =>
  match env.makeRenderPipelineState with
  | some e => (t1 ++ [.windowDestroy, .glfwTerminate], .returned (some e))
  | none =>
  match frameLoop (fun k => cubeFrame (env.nextDrawable k)) 0 env.shouldClose with
  | (evs, .running) => (t1 ++ evs, .running)
  | (evs, fin) => (t1 ++ evs ++ [.windowDestroy, .glfwTerminate], fin)

/-- Embedding of `main` of mtl-cube. -/
def main (env : MetalEnv) : Exit := mainOf (run env)

end MtlCube

namespace MtlInfo

/-- Embedding of `yes`: the `switch` compares `v` with `true`, then with
`false`; the statement after it is `panic("unreachable")`. -/
def yes (v : Bool) : Outcome String :=
  if v = true then .ret "yes"
  else if v = false then .ret "no"
  else .panic "unreachable"

/-- Embedding of `supported`, built like `yes`. -/
def supported (v : Bool) : Outcome String :=
  if v = true then .ret "✅ supported"
  else if v = false then .ret "❌ unsupported"
  else .panic "unreachable"

/-- The fields and queries of an `mtl.Device` that mtl-info reads; GPU
families and feature sets are named by their constants in package `mtl`. -/
structure Device where
  name : String
  lowPower : Bool
  removable : Bool
  headless : Bool
  registryID : Nat
  supportsFamily : String → Bool
  supportsFeatureSet : String → Bool

/-- A sequence of `fmt.Println` calls whose arguments are computed first: the
lines printed and, when computing an argument panics, the panic message. -/
def printAll : List (Outcome String) → List String × Option String
  | [] => ([], none)
  | .panic p :: _ => ([], some p)
  | .ret l :: rest =>
    let r := printAll rest
    (l :: r.1, r.2)

/-- Embedding of `printDeviceInfo`: the lines it prints, and the panic message
if it panics. -/
def printDeviceInfo (d : Device) : List String × Option String :=
  printAll
    [.ret (d.name ++ ":"),
     (yes d.lowPower).map ("\t• low-power: " ++ ·),
     (yes d.removable).map ("\t• removable: " ++ ·),
     (yes d.headless).map ("\t• configured as headless: " ++ ·),
     .ret ("\t• registry ID: " ++ toString d.registryID),
     .ret (""),
     .ret ("\tGPU Families:"),
     (supported (d.supportsFamily "GPUFamilyApple1")).map ("\t• An Apple family 1 GPU: " ++ ·),
     (supported (d.supportsFamily "GPUFamilyApple2")).map ("\t• An Apple family 2 GPU: " ++ ·),
     (supported (d.supportsFamily "GPUFamilyApple3")).map ("\t• An Apple family 3 GPU: " ++ ·),
     (supported (d.supportsFamily "GPUFamilyApple4")).map ("\t• An Apple family 4 GPU: " ++ ·),
     (supported (d.supportsFamily "GPUFamilyApple5")).map ("\t• An Apple family 5 GPU: " ++ ·),
     (supported (d.supportsFamily "GPUFamilyApple6")).map ("\t• An Apple family 6 GPU: " ++ ·),
     (supported (d.supportsFamily "GPUFamilyApple7")).map ("\t• An Apple family 7 GPU: " ++ ·),
     (supported (d.supportsFamily "GPUFamilyApple8")).map ("\t• An Apple family 8 GPU: " ++ ·),
     (supported (d.supportsFamily "GPUFamilyMac1")).map ("\t• A family 1 Mac GPU: " ++ ·),
     (supported (d.supportsFamily "GPUFamilyMac2")).map ("\t• A family 2 Mac GPU: " ++ ·),
     (supported (d.supportsFamily "GPUFamilyCommon1")).map ("\t• Common family 1: " ++ ·),
     (supported (d.supportsFamily "GPUFamilyCommon2")).map ("\t• Common family 2: " ++ ·),
     (supported (d.supportsFamily "GPUFamilyCommon3")).map ("\t• Common family 3: " ++ ·),
     (supported (d.supportsFamily "GPUFamilyMetal3")).map ("\t• Metal 3 features: " ++ ·),
     .ret (""),
     .ret ("\tFeature Sets (deprecated):"),
     (supported (d.supportsFeatureSet "MacOSGPUFamily1V1")).map ("\t• macOS GPU family 1, version 1: " ++ ·),
     (supported (d.supportsFeatureSet "MacOSGPUFamily1V2")).map ("\t• macOS GPU family 1, version 2: " ++ ·),
     (supported (d.supportsFeatureSet "MacOSReadWriteTextureTier2")).map ("\t• macOS read-write texture, tier 2: " ++ ·),
     (supported (d.supportsFeatureSet "MacOSGPUFamily1V3")).map ("\t• macOS GPU family 1, version 3: " ++ ·),
     (supported (d.supportsFeatureSet "MacOSGPUFamily1V4")).map ("\t• macOS GPU family 1, version 4: " ++ ·),
     (supported (d.supportsFeatureSet "MacOSGPUFamily2V1")).map ("\t• macOS GPU family 2, version 1: " ++ ·)]

/-- The loop `for _, d := range allDevices { fmt.Println(); printDeviceInfo(d) }`. -/
def printDevices : List Device → List Ev × Option String
  | [] => ([], none)
  | d :: ds =>
    match printDeviceInfo d with
    | (ls, some p) => (Ev.println "" :: ls.map Ev.println, some p)
    | (ls, none) =>
      let r := printDevices ds
      (Ev.println "" :: ls.map Ev.println ++ r.1, r.2)

/-- Embedding of `run` of mtl-info.  `deviceErr` is the error of
`mtl.CreateSystemDefaultDevice()`, `device` the device it returns and
`allDevices` the result of `mtl.CopyAllDevices()`. -/
def run (deviceErr : Option String) (device : Device) (allDevices : List Device) :
    List Ev × Ending :=
  match deviceErr with
  | some e => ([.println e], .returned none)
  | none =>
    let t1 := Ev.println ("preferred system default Metal device: " ++ device.name)
    match printDevices allDevices with
    | (evs, some p) => (t1 :: evs, .panicked p)
    | (evs, none) => (t1 :: evs, .returned none)

/-- Embedding of `main` of mtl-info. -/
def main (deviceErr : Option String) (device : Device) (allDevices : List Device) : Exit :=
  mainOf (run deviceErr device allDevices)

end MtlInfo

namespace GlTriangle

/-- The constant `vertexShaderSource`. -/
def vertexShaderSource : String :=
  "\n" ++
  "    #version 410\n" ++
  "\n" ++
  "    layout (location = 0) in vec3 position;\n" ++
  "    layout (location = 1) in vec3 color;\n" ++
  "    \n" ++
  "    out vec3 vertexColor;\n" ++
  "\n" ++
  "    void main() \x7b\n" ++
  "        gl_Position = vec4(position, 1.0);\n" ++
  "        vertexColor = color;\n" ++
  "    \x7d\n" ++
  "" ++ "\x00"

/-- The constant `fragmentShaderSource`. -/
def fragmentShaderSource : String :=
  "\n" ++
  "    #version 410\n" ++
  "\n" ++
  "    out vec4 fragColor;\n" ++
  "    in vec3 vertexColor;\n" ++
  "\n" ++
  "    void main() \x7b\n" ++
  "        fragColor = vec4(vertexColor, 1);\n" ++
  "    \x7d\n" ++
  "" ++ "\x00"

/-- What the bindings answer during one execution of the OpenGL example. -/
structure Env where
  /-- Error of `glfw.Init()`. -/
  glfwInit : Option String
  /-- Error of `glfw.CreateWindow(...)`. -/
  createWindow : Option String
  /-- Error of `gl.Init()`. -/
  glInit : Option String
  /-- The string `gl.GoStr(gl.GetString(gl.VERSION))`. -/
  version : String
  /-- The OpenGL binding. -/
  gl : GLBinding
  /-- Successive answers of `window.ShouldClose()`. -/
  shouldClose : List Bool

/-- Embedding of `initGlfw`: it panics on an error of `glfw.Init` or
`glfw.CreateWindow`. -/
def initGlfw (env : Env) : Outcome Unit :=
  match env.glfwInit with
  | some e => .panic e
  | none =>
    match env.createWindow with
    | some e => .panic e
    | none => .ret ()

/-- Embedding of `main` of the OpenGL example: the events and how it ends.  The
deferred `glfw.Terminate()` runs when `main` returns or panics after
`initGlfw`. -/
def main (env : Env) : List Ev × Ending :=
  match initGlfw env with
  | .panic p => ([], .panicked p)
  | .ret () =>
  match env.glInit with
  | some e => ([.glfwTerminate], .panicked e)
  | none =>
  let t1 := [Ev.println ("OpenGL version " ++ env.version)]
  match newProgram env.gl vertexShaderSource fragmentShaderSource with
  | .panic p => (t1 ++ [.glfwTerminate], .panicked p)
  | .ret (program, calls) =>
  let t2 := t1 ++ calls.map Ev.gl ++ (makeVao env.gl triangle).2.map Ev.gl
  match (makeVao env.gl triangle).1 with
  | .panic p => (t2 ++ [.glfwTerminate], .panicked p)
  | .ret vao =>
  match frameLoop (fun _ => glFrame vao program) 0 env.shouldClose with
  | (evs, .running) => (t2 ++ evs, .running)
  | (evs, fin) => (t2 ++ evs ++ [.glfwTerminate], fin)

end GlTriangle

/-! ## The FPS counter of the Metal examples -/

/-- What the `select` of the counter goroutine receives: a value on the
`frame` channel or a tick of `time.Tick(time.Second)`. -/
inductive FpsEvent
  | frame
  | second
  deriving DecidableEq, Repr

/-- State of the counter goroutine: the variable `frames` and the numbers
printed so far by `fmt.Println("fps:", frames)`, oldest first. -/
structure FpsState where
  frames : Nat
  printed : List Nat
  deriving DecidableEq, Repr

/-- One pass through the `select` of the counter goroutine.  `frames` is a Go
`int`; it is embedded as a natural number, as it cannot wrap before 2^63
frames have been received within one second. -/
def fpsSelect (s : FpsState) : FpsEvent → FpsState
  | .second => { frames := 0, printed := s.printed ++ [s.frames] }
  | .frame => { s with frames := s.frames + 1 }

/-- Embedding of the goroutine started by `makeFPSCounter` (mtl-cube), run
over the events it receives, from `frames := 0`. -/
def makeFPSCounter (events : List FpsEvent) : FpsState :=
  events.foldl fpsSelect { frames := 0, printed := [] }

/-- Embedding of the goroutine started by `startFPSCounter`
(mtl-movingtriangle): the same loop. -/
def startFPSCounter (events : List FpsEvent) : FpsState :=
  events.foldl fpsSelect { frames := 0, printed := [] }

/-- Number of ticks in an event sequence. -/
def ticks (events : List FpsEvent) : Nat := events.count .second

/-- Number of frame signals in an event sequence. -/
def frameSignals (events : List FpsEvent) : Nat := events.count .frame

/-! ## The window callbacks of the Metal examples -/

/-- A callback invocation by the window system.  `F64` stands for `float64`. -/
inductive WindowEvent (F64 : Type)
  | framebufferSize (width height : Int)
  | size (width height : Int)
  | cursorPos (x y : F64)

/-- The variables the callbacks of `run` write: the drawable size of the Metal
layer, `windowSize` (`[2]int32`) and `pos` (`[2]float32`, `F32` here). -/
structure Uniforms (F32 : Type) where
  drawableSize : Int × Int
  windowSize : Int × Int
  pos : F32 × F32

/-- Values before any callback has run: the layer has the framebuffer size
`fb`, `windowSize = {windowWidth, windowHeight}` and `pos` is zero. -/
def Uniforms.initial {F32 : Type} (zero : F32) (fb : Int × Int) : Uniforms F32 :=
  { drawableSize := fb, windowSize := (800, 600), pos := (zero, zero) }

/-- The three callbacks registered by `run` (mtl-cube and mtl-movingtriangle
register the same ones).  `toFloat32` is the conversion `float32(x)`. -/
def callback {F64 F32 : Type} (toFloat32 : F64 → F32) (u : Uniforms F32) :
    WindowEvent F64 → Uniforms F32
  | .framebufferSize width height => { u with drawableSize := (width, height) }
  | .size width height => { u with windowSize := (toInt32 width, toInt32 height) }
  | .cursorPos x y => { u with pos := (toFloat32 x, toFloat32 y) }

/-- The variables after a sequence of callback invocations. -/
def callbacks {F64 F32 : Type} (toFloat32 : F64 → F32) (u : Uniforms F32)
    (events : List (WindowEvent F64)) : Uniforms F32 :=
  events.foldl (callback toFloat32) u

/-- The arguments of a size callback. -/
def sizeArgs {F64 : Type} : WindowEvent F64 → Option (Int × Int)
  | .size width height => some (width, height)
  | _ => none

/-- The arguments of a cursor-position callback. -/
def cursorArgs {F64 : Type} : WindowEvent F64 → Option (F64 × F64)
  | .cursorPos x y => some (x, y)
  | _ => none

/-- The 2 by 2 sub-image at (1,1) of a 4 by 4 `image.NRGBA` (64 pixel bytes,
stride 16), as `SubImage` returns it: it shares the pixel bytes from offset
`1*16 + 1*4 = 20` on and keeps the stride of the whole image. -/
def subImage : NRGBA :=
  { Pix := List.replicate 44 0, Stride := 16, Rect := { minX := 1, minY := 1, maxX := 3, maxY := 3 } }

/-- An image of another type than NRGBA with 2^30 by 2^30 pixels: its 2^62
pixel bytes fit in an `int` and exceed `maxAlloc`. -/
def hugeImage : Image :=
  .other { minX := 0, minY := 0, maxX := 1073741824, maxY := 1073741824 }
    (fun _ _ => (0, 0, 0, 255))

/-- An image with the bounds of an `image.Uniform`: -1e9 to 1e9 on both axes. -/
def uniformImage : Image :=
  .other { minX := -1000000000, minY := -1000000000, maxX := 1000000000, maxY := 1000000000 }
    (fun _ _ => (255, 255, 255, 255))

/-- A 2 by 1 image of another type than NRGBA, with bounds from (5,7) to (7,8). -/
def smallImage : Image :=
  .other { minX := 5, minY := 7, maxX := 7, maxY := 8 }
    (fun x y => (x.toNat, y.toNat, 0, 255))

/-- A device for the examples below. -/
def MtlInfo.sampleDevice : MtlInfo.Device :=
  { name := "GPU", lowPower := false, removable := false, headless := false,
    registryID := 1, supportsFamily := fun _ => true, supportsFeatureSet := fun _ => false }

/-- An environment in which every setup step succeeds, the texture is
`smallImage`, `ml.NextDrawable()` never fails and the window closes after two
frames. -/
def twoFramesEnv : MetalEnv :=
  { deviceName := "GPU", createSystemDefaultDevice := none, glfwInit := none,
    createWindow := none, osOpen := none, imageDecode := none, texture := smallImage,
    makeLibrary := none, makeVertexFunction := none, makeFragmentFunction := none,
    makeRenderPipelineState := none, shouldClose := [false, false, true],
    nextDrawable := fun _ => none }

/-- The errors of the setup steps of `run` of mtl-movingtriangle, in program
order: default device, GLFW init, window, shader library, the two function
lookups, pipeline state. -/
def MtlMovingTriangle.setupErrors (env : MetalEnv) : List (Option String) :=
  [env.createSystemDefaultDevice, env.glfwInit, env.createWindow, env.makeLibrary,
   env.makeVertexFunction, env.makeFragmentFunction, env.makeRenderPipelineState]

/-- The errors of the setup steps of `run` of mtl-cube, in program order:
default device, GLFW init, window, texture file open, texture decode, shader
library, the two function lookups, pipeline state. -/
def MtlCube.setupErrors (env : MetalEnv) : List (Option String) :=
  [env.createSystemDefaultDevice, env.glfwInit, env.createWindow, env.osOpen,
   env.imageDecode, env.makeLibrary, env.makeVertexFunction, env.makeFragmentFunction,
   env.makeRenderPipelineState]

/-- Events of one iteration of the OpenGL example's loop. -/
def glBody (vao program : Nat) : List Ev := (glFrame vao program).1

/-- Events of one iteration of the loop of mtl-cube in which
`ml.NextDrawable()` succeeds. -/
def cubeBody : List Ev := (cubeFrame none).1

/-- Events of one iteration of the loop of mtl-movingtriangle in which
`ml.NextDrawable()` succeeds. -/
def movingTriangleBody : List Ev := (movingTriangleFrame none).1

/-- An environment of the OpenGL example in which every setup step succeeds,
both shaders compile and the window closes after two frames. -/
def GlTriangle.twoFramesEnv : GlTriangle.Env :=
  { glfwInit := none, createWindow := none, glInit := none, version := "4.1",
    gl := unlinkableGL, shouldClose := [false, false, true] }

/-- Is the image tightly packed from its first byte on: the stride is four
bytes per pixel of a row and the buffer holds exactly the rows of the image. -/
def NRGBA.packed (img : NRGBA) : Prop :=
  img.Stride = 4 * img.Rect.Dx ∧ (img.Pix.length : Int) = 4 * img.Rect.Dx * img.Rect.Dy

/-! ## Theorems: boot.go -/

theorem filterMap_snoc {α β : Type} (f : α → Option β) (l : List α) (a : α) :
    (l ++ [a]).filterMap f = l.filterMap f ++ (match f a with | some b => [b] | none => []) := by
  rw [List.filterMap_append]
  congr 1
  cases h : f a <;> simp [List.filterMap_cons, h]

theorem inv_init : Inv St.init := by
  constructor <;> simp [St.init, progress, pcOk, added, doneCalls]

theorem Run_inv {s s' : St} (h : Inv s) (hs : Run s = some s') : Inv s' := by
  obtain ⟨h1, h2, h3, h4, h5, h6, h7, h8, h9, h10⟩ := h
  obtain ⟨pc, lg, rd, wg, out⟩ := s
  cases pc <;> simp only [Run] at hs
  · -- hello
    cases hs
    simp at h6 h7; subst h6; subst h7
    constructor <;> simp_all [filterMap_snoc, logicIdx, renderIdx, progress, pcOk, added, doneCalls]
  · -- add
    cases hs
    simp at h6 h7; subst h6; subst h7
    constructor <;> simp_all [progress, pcOk, added, doneCalls]
  · -- goLogic
    cases hs
    simp at h6 h7; subst h6; subst h7
    constructor <;> simp_all [progress, pcOk, added, doneCalls]
  · -- goRender
    cases hs
    simp at h7; subst h7
    constructor <;> simp_all [progress, pcOk, added, doneCalls]
  · -- wait
    split at hs
    · cases hs
      rename_i hz
      have hb : lg = some .exited ∧ rd = some .exited := by
        simp only [added] at h5
        rw [hz] at h5
        rcases lg with _ | lp <;> rcases rd with _ | rp
        · simp [doneCalls] at h5
        · cases rp <;> simp [doneCalls] at h5
        · cases lp <;> simp [doneCalls] at h5
        · cases lp <;> cases rp <;> simp [doneCalls] at h5
          exact ⟨rfl, rfl⟩
      constructor <;> simp_all [progress, pcOk, added, doneCalls]
    · cases hs
  · -- finish
    cases hs
    simp at h8 h9
    constructor <;> simp_all [filterMap_snoc, logicIdx, renderIdx, progress, pcOk, added, doneCalls]
  · -- returned
    cases hs

theorem logicLoop_inv {s s' : St} (h : Inv s) (hs : step .logic s = some s') : Inv s' := by
  obtain ⟨h1, h2, h3, h4, h5, h6, h7, h8, h9, h10⟩ := h
  obtain ⟨pc, lg, rd, wg, out⟩ := s
  simp only [step] at hs
  rcases lg with _ | lp
  · cases hs
  · cases lp <;> simp only [logicLoop, loopStep] at hs
    · -- test
      rename_i i
      simp only [pcOk] at h3
      split_ifs at hs with hi
      · cases hs
        constructor <;> simp_all [applyAct, progress, pcOk, added, doneCalls]
      · cases hs
        have h5i : i = 5 := by omega
        subst h5i
        constructor <;> simp_all [applyAct, progress, pcOk, added, doneCalls]
    · -- print
      cases hs
      constructor <;>
        simp_all [applyAct, filterMap_snoc, logicIdx, renderIdx, progress, pcOk, added,
          doneCalls, List.range_succ]
    · -- sleep
      cases hs
      simp only [pcOk] at h3
      constructor <;> simp_all [applyAct, progress, pcOk, added, doneCalls]
      all_goals omega
    · -- done
      cases hs
      constructor <;> simp_all [applyAct, progress, pcOk, added, doneCalls]
      all_goals omega
    · -- exited
      cases hs

theorem renderLoop_inv {s s' : St} (h : Inv s) (hs : step .render s = some s') : Inv s' := by
  obtain ⟨h1, h2, h3, h4, h5, h6, h7, h8, h9, h10⟩ := h
  obtain ⟨pc, lg, rd, wg, out⟩ := s
  simp only [step] at hs
  rcases rd with _ | lp
  · cases hs
  · cases lp <;> simp only [renderLoop, loopStep] at hs
    · -- test
      rename_i i
      simp only [pcOk] at h4
      split_ifs at hs with hi
      · cases hs
        constructor <;> simp_all [applyAct, progress, pcOk, added, doneCalls]
      · cases hs
        have h5i : i = 5 := by omega
        subst h5i
        constructor <;> simp_all [applyAct, progress, pcOk, added, doneCalls]
    · -- print
      cases hs
      constructor <;>
        simp_all [applyAct, filterMap_snoc, logicIdx, renderIdx, progress, pcOk, added,
          doneCalls, List.range_succ]
    · -- sleep
      cases hs
      simp only [pcOk] at h4
      constructor <;> simp_all [applyAct, progress, pcOk, added, doneCalls]
      all_goals omega
    · -- done
      cases hs
      constructor <;> simp_all [applyAct, progress, pcOk, added, doneCalls]
    · -- exited
      cases hs

theorem step_inv {s s' : St} (t : Tid) (h : Inv s) (hs : step t s = some s') : Inv s' := by
  cases t
  · exact Run_inv h hs
  · exact logicLoop_inv h hs
  · exact renderLoop_inv h hs

theorem run_inv (sched : List Tid) : ∀ s : St, Inv s → Inv (run sched s) := by
  induction sched with
  | nil => intro s h; exact h
  | cons t ts ih =>
    intro s h
    simp only [run]
    cases hs : step t s with
    | none => exact ih s h
    | some s' => exact ih s' (step_inv t h hs)

theorem snoc_eq_split {α : Type} {a : α} :
    ∀ {l pre post : List α}, a ∉ l → l ++ [a] = pre ++ a :: post → pre = l ∧ post = [] := by
  intro l
  induction l with
  | nil =>
    intro pre post _ h
    cases pre with
    | nil => simp at h; simp [h]
    | cons b pre => simp at h
  | cons b l ih =>
    intro pre post hn h
    cases pre with
    | nil =>
      simp at h hn
      exact absurd h.1.symm hn.1
    | cons c pre =>
      simp at h hn
      obtain ⟨h1, h2⟩ := ih hn.2 h.2
      exact ⟨by rw [h.1, h1], h2⟩

/-- C1: under every schedule of `Run`, `logicLoop` and `renderLoop`, whatever
was written before "Test Loop Finished" contains the five "Logic Loop
Iteration" lines 0..4 and the five "Render Loop Iteration" lines 0..4 (each
exactly once, in order); nothing follows the completion line, both goroutines
have returned and the wait-group counter is zero. -/
theorem Run_finished_after_both_loops (sched : List Tid) (pre post : List Line)
    (h : (run sched St.init).out = pre ++ Line.finished :: post) :
    pre.filterMap logicIdx = [0, 1, 2, 3, 4] ∧
    pre.filterMap renderIdx = [0, 1, 2, 3, 4] ∧
    (∀ i, i < 5 → Line.logicIter i ∈ pre ∧ Line.renderIter i ∈ pre) ∧
    post = [] ∧
    (run sched St.init).logic = some .exited ∧
    (run sched St.init).render = some .exited ∧
    (run sched St.init).wg = 0 := by
  have hinv := run_inv sched St.init inv_init
  have hret : (run sched St.init).mainPc = .returned := by
    by_contra hne
    have := hinv.notYet hne
    rw [h] at this
    simp at this
  obtain ⟨pre', hout, hnot⟩ := hinv.last hret
  obtain ⟨hpre, hpost⟩ := snoc_eq_split hnot (hout.symm.trans h)
  subst hpre
  obtain ⟨hl, hr⟩ := hinv.afterWait (Or.inr hret)
  have hlo := hinv.logicOut
  have hro := hinv.renderOut
  rw [hout, filterMap_snoc, hl] at hlo
  rw [hout, filterMap_snoc, hr] at hro
  simp only [logicIdx, progress, List.append_nil] at hlo
  simp only [renderIdx, progress, List.append_nil] at hro
  have h5 : List.range 5 = [0, 1, 2, 3, 4] := by decide
  rw [h5] at hlo hro
  refine ⟨hlo, hro, ?_, hpost, hl, hr, ?_⟩
  · intro i hi
    have hmem : i ∈ [0, 1, 2, 3, 4] := by
      have : i ∈ List.range 5 := List.mem_range.mpr hi
      rwa [h5] at this
    constructor
    · have hm := hmem
      rw [← hlo, List.mem_filterMap] at hm
      obtain ⟨a, ha, hai⟩ := hm
      cases a <;> simp [logicIdx] at hai
      subst hai
      exact ha
    · have hm := hmem
      rw [← hro, List.mem_filterMap] at hm
      obtain ⟨a, ha, hai⟩ := hm
      cases a <;> simp [renderIdx] at hai
      subst hai
      exact ha
  · have hc := hinv.counter
    rw [hret, hl, hr] at hc
    simpa [added, doneCalls] using hc

/-- C1 (instance): under `fairSchedule` the completion line is written, and the
ten iteration lines precede it. -/
theorem Run_finished_after_both_loops_witness :
    (run fairSchedule St.init).out =
      [Line.hello, .logicIter 0, .renderIter 0, .logicIter 1, .renderIter 1,
        .logicIter 2, .renderIter 2, .logicIter 3, .renderIter 3, .logicIter 4,
        .renderIter 4] ++ Line.finished :: [] ∧
    [Line.hello, .logicIter 0, .renderIter 0, .logicIter 1, .renderIter 1,
        .logicIter 2, .renderIter 2, .logicIter 3, .renderIter 3, .logicIter 4,
        .renderIter 4].filterMap logicIdx = [0, 1, 2, 3, 4] :=
  ⟨by decide, (Run_finished_after_both_loops fairSchedule _ [] (by decide)).1⟩

theorem loopRun_exited (body : LoopPc → Option (LoopPc × Act)) (h : body .exited = none)
    (k : Nat) : loopRun body k .exited = ([], .exited) := by
  cases k <;> simp [loopRun, h]

theorem inv_wg_phase {s : St} (h : Inv s) :
    phase s ≤ 3 ∧ s.wg = ([0, 2, 1, 0] : List Int).getD (phase s) 0 := by
  obtain ⟨_, _, _, _, h5, h6, h7, _, _, _⟩ := h
  obtain ⟨pc, lg, rd, wg, out⟩ := s
  simp only at h5 h6 h7
  subst h5
  cases pc <;> simp only [phase, added] <;>
    by_cases hl : lg = some .exited <;> by_cases hr : rd = some .exited <;>
    simp_all [doneCalls]
  all_goals
    rcases lg with _ | lp <;> rcases rd with _ | rp <;>
      (try cases lp) <;> (try cases rp) <;> simp_all [doneCalls]

theorem step_phase {s s' : St} (t : Tid) (h : Inv s) (hs : step t s = some s') :
    phase s' = phase s ∨ phase s' = phase s + 1 := by
  obtain ⟨_, _, _, _, _, h6, h7, h8, _, _⟩ := h
  obtain ⟨pc, lg, rd, wg, out⟩ := s
  simp only at h6 h7 h8
  cases t
  · simp only [step] at hs
    cases pc <;> simp only [Run] at hs
    · cases hs; left; rfl
    · cases hs
      simp at h6 h7; subst h6; subst h7
      right; rfl
    · cases hs
      simp at h6 h7; subst h6; subst h7
      left; rfl
    · cases hs
      simp at h7; subst h7
      left; simp [phase]
    · split at hs
      · cases hs; left; rfl
      · cases hs
    · cases hs; left; rfl
    · cases hs
  · simp only [step] at hs
    rcases lg with _ | lp
    · cases hs
    · cases lp <;> simp only [logicLoop, loopStep] at hs
      · split_ifs at hs <;> cases hs <;> cases pc <;> simp_all [phase, applyAct]
      · cases hs; cases pc <;> simp_all [phase, applyAct]
      · cases hs; cases pc <;> simp_all [phase, applyAct]
      · cases hs; cases pc <;> simp_all [phase, applyAct] <;> omega
      · cases hs
  · simp only [step] at hs
    rcases rd with _ | rp
    · cases hs
    · cases rp <;> simp only [renderLoop, loopStep] at hs
      · split_ifs at hs <;> cases hs <;> cases pc <;> simp_all [phase, applyAct]
      · cases hs; cases pc <;> simp_all [phase, applyAct]
      · cases hs; cases pc <;> simp_all [phase, applyAct]
      · cases hs; cases pc <;> simp_all [phase, applyAct] <;> omega
      · cases hs

theorem counterHistory_head (sched : List Tid) (s : St) :
    ∃ tl, counterHistory sched s = s.wg :: tl := by
  cases sched with
  | nil => exact ⟨[], rfl⟩
  | cons t ts => exact ⟨_, rfl⟩

theorem changes_cons_same (a : Int) (tl : List Int) :
    changes (a :: a :: tl) = changes (a :: tl) := by
  simp [changes]

theorem changes_cons_diff (a b : Int) (tl : List Int) (h : a ≠ b) :
    changes (a :: b :: tl) = a :: changes (b :: tl) := by
  simp [changes, h]

theorem changes_history (sched : List Tid) :
    ∀ s : St, Inv s →
      changes (counterHistory sched s) <+: ([0, 2, 1, 0] : List Int).drop (phase s) := by
  induction sched with
  | nil =>
    intro s h
    obtain ⟨hp, hw⟩ := inv_wg_phase h
    simp only [counterHistory, changes, hw]
    generalize phase s = p at hp
    interval_cases p <;> simp [List.prefix_cons_inj]
  | cons t ts ih =>
    intro s h
    obtain ⟨hp, hw⟩ := inv_wg_phase h
    simp only [counterHistory]
    cases hs : step t s with
    | none =>
      simp only [Option.getD_none]
      obtain ⟨tl, htl⟩ := counterHistory_head ts s
      rw [htl, changes_cons_same, ← htl]
      exact ih s h
    | some s' =>
      simp only [Option.getD_some]
      have h' := step_inv t h hs
      obtain ⟨hp', hw'⟩ := inv_wg_phase h'
      obtain ⟨tl, htl⟩ := counterHistory_head ts s'
      have ih' := ih s' h'
      rcases step_phase t h hs with he | he
      · have hwg : s.wg = s'.wg := by rw [hw, hw', he]
        rw [htl, hwg, changes_cons_same, ← htl, ← he]
        exact ih'
      · rw [he] at hp' hw' ih'
        rw [htl] at ih' ⊢
        rw [hw, hw'] at *
        generalize phase s = p at hp hp' hw hw' ih' he
        interval_cases p
        · rw [changes_cons_diff _ _ _ (by decide)]
          simpa [List.prefix_cons_inj] using ih'
        · rw [changes_cons_diff _ _ _ (by decide)]
          simpa [List.prefix_cons_inj] using ih'
        · rw [changes_cons_diff _ _ _ (by decide)]
          simpa [List.prefix_cons_inj] using ih'
        · omega

theorem inv_counter_bounds {s : St} (h : Inv s) : 0 ≤ s.wg ∧ s.wg ≤ 2 := by
  obtain ⟨hp, hw⟩ := inv_wg_phase h
  rw [hw]
  generalize phase s = p at hp
  interval_cases p <;> simp

theorem counterHistory_bounds (sched : List Tid) :
    ∀ s : St, Inv s → ∀ x ∈ counterHistory sched s, 0 ≤ x ∧ x ≤ 2 := by
  induction sched with
  | nil =>
    intro s h x hx
    simp only [counterHistory, List.mem_singleton] at hx
    subst hx
    exact inv_counter_bounds h
  | cons t ts ih =>
    intro s h x hx
    simp only [counterHistory, List.mem_cons] at hx
    rcases hx with hx | hx
    · subst hx
      exact inv_counter_bounds h
    · cases hs : step t s with
      | none =>
        rw [hs] at hx
        exact ih s h x hx
      | some s' =>
        rw [hs] at hx
        exact ih s' (step_inv t h hs) x hx

/-- C2: run on its own with enough fuel (17 actions or more), `logicLoop`
prints its line for i = 0, 1, 2, 3, 4 in this order, sleeping after each, then
calls `wg.Done()` exactly once and returns; so does `renderLoop`.  Under every
schedule the wait-group counter equals what `Run` added (2 once `wg.Add(2)` has
run) minus one per goroutine that has returned, it stays within 0..2 at every
tick, it is 0 when both goroutines have returned, and the values it takes, in
order, are an initial part of 0, 2, 1, 0.  The counter is 2 right after
`wg.Add(2)`, and under `fairSchedule` it takes the values 0, 2, 1, 0 and ends
at 0 with both goroutines returned. -/
theorem loops_five_iterations_then_done (k : Nat) (sched : List Tid) :
    loopRun logicLoop (17 + k) (.test 0) =
      ([.print (.logicIter 0), .sleep 1000, .print (.logicIter 1), .sleep 1000,
        .print (.logicIter 2), .sleep 1000, .print (.logicIter 3), .sleep 1000,
        .print (.logicIter 4), .sleep 1000, .wgDone], .exited) ∧
    loopRun renderLoop (17 + k) (.test 0) =
      ([.print (.renderIter 0), .sleep 500, .print (.renderIter 1), .sleep 500,
        .print (.renderIter 2), .sleep 500, .print (.renderIter 3), .sleep 500,
        .print (.renderIter 4), .sleep 500, .wgDone], .exited) ∧
    (run sched St.init).wg = added (run sched St.init).mainPc
      - doneCalls (run sched St.init).logic - doneCalls (run sched St.init).render ∧
    0 ≤ (run sched St.init).wg ∧ (run sched St.init).wg ≤ 2 ∧
    ((run sched St.init).logic = some .exited → (run sched St.init).render = some .exited →
      (run sched St.init).wg = 0) ∧
    (∀ x ∈ counterHistory sched St.init, 0 ≤ x ∧ x ≤ 2) ∧
    changes (counterHistory sched St.init) <+: [0, 2, 1, 0] ∧
    (run [.main, .main] St.init).wg = 2 ∧
    changes (counterHistory fairSchedule St.init) = [0, 2, 1, 0] ∧
    (run fairSchedule St.init).logic = some .exited ∧
    (run fairSchedule St.init).render = some .exited ∧
    (run fairSchedule St.init).wg = 0 := by
  have hinv := run_inv sched St.init inv_init
  have hc := hinv.counter
  have hk : 17 + k = k + 17 := Nat.add_comm 17 k
  have hb := inv_counter_bounds hinv
  have hh := changes_history sched St.init inv_init
  refine ⟨?_, ?_, hc, hb.1, hb.2, ?_, counterHistory_bounds sched St.init inv_init, hh,
    by decide, by decide, by decide, by decide, by decide⟩
  · rw [hk]
    simp [loopRun, logicLoop, loopStep, loopRun_exited]
  · rw [hk]
    simp [loopRun, renderLoop, loopStep, loopRun_exited]
  · intro hl hr
    have h6 := hinv.logicSpawn
    rw [hc, hl, hr]
    cases hm : (run sched St.init).mainPc <;> rw [hm] at h6 <;>
      simp_all [added, doneCalls]

/-! ## Theorems: examples/gl-rainbow-triangle -/

theorem toInt32_of_range (x : Int) (h0 : -2 ^ 31 ≤ x) (h1 : x < 2 ^ 31) : toInt32 x = x := by
  unfold toInt32
  omega

theorem getShaderInfoLog_nulBuffer (text : List Char) (n : Nat) :
    getShaderInfoLog text (n : Int) (List.replicate (n + 1) '\x00') =
      text.take (n - 1) ++ List.replicate (n + 1 - min text.length (n - 1)) '\x00' := by
  unfold getShaderInfoLog
  rcases Nat.eq_zero_or_pos n with h | h
  · subst h
    simp
  · have hn : ¬ ((n : Int) ≤ 0) := by omega
    rw [if_neg hn]
    have hlen : (List.take (n - 1) text ++ ['\x00']).length = min text.length (n - 1) + 1 := by
      simp [List.length_take, Nat.min_comm]
    simp only [Int.toNat_ofNat, hlen, List.drop_replicate, List.length_replicate,
      List.append_assoc]
    have hrep : ['\x00'] ++ List.replicate (n + 1 - (min text.length (n - 1) + 1)) '\x00' =
        List.replicate (n + 1 - min text.length (n - 1)) '\x00' := by
      have : n + 1 - min text.length (n - 1) = (n + 1 - (min text.length (n - 1) + 1)) + 1 := by
        omega
      rw [this, List.replicate_succ]
      rfl
    rw [hrep]
    apply List.take_of_length_le
    simp [List.length_take]
    omega

theorem toInt32_succ (n : Nat) (hlt : n < 2 ^ 31 - 1) :
    toInt32 ((n : Int) + 1) = ((n + 1 : Nat) : Int) := by
  rw [toInt32_of_range]
  · push_cast; rfl
  · omega
  · omega

theorem repeatNul_succ (n : Nat) :
    repeatNul ((n + 1 : Nat) : Int) = .ret (List.replicate (n + 1) '\x00') := by
  unfold repeatNul
  rw [if_neg (by omega)]
  simp

theorem glStr_replicate_succ (n : Nat) : glStr (List.replicate (n + 1) '\x00') = .ret () := by
  unfold glStr
  rw [List.getLast?_replicate]
  simp

theorem compileShader_failed (gl : GLBinding) (source : String) (shaderType : Nat)
    (hs : gl.compileStatus shaderType source = GL_FALSE) (n : Nat)
    (hn : gl.infoLogLength shaderType source = (n : Int)) (hlt : n < 2 ^ 31 - 1) :
    compileShader gl source shaderType =
      .ret (0, some ("failed to compile " ++ source ++ ": " ++
        String.mk ((gl.infoLog shaderType source).take (n - 1) ++
          List.replicate (n + 1 - min (gl.infoLog shaderType source).length (n - 1)) '\x00'))) := by
  unfold compileShader
  rw [if_pos hs]
  simp only [hn, toInt32_succ n hlt, repeatNul_succ, glStr_replicate_succ,
    getShaderInfoLog_nulBuffer]

theorem compileShader_ok (gl : GLBinding) (source : String) (shaderType : Nat)
    (hs : gl.compileStatus shaderType source ≠ GL_FALSE) :
    compileShader gl source shaderType = .ret (gl.createShader shaderType, none) := by
  unfold compileShader
  simp only [hs, if_false]

theorem compileShader_rejected (gl : GLBinding) (source : String) (shaderType : Nat)
    (hs : gl.compileStatus shaderType source = GL_FALSE) :
    (∃ p, compileShader gl source shaderType = .panic p) ∨
    (∃ e, compileShader gl source shaderType = .ret (0, some e)) := by
  unfold compileShader
  rw [if_pos hs]
  dsimp only
  split
  · exact Or.inl ⟨_, rfl⟩
  · split
    · exact Or.inl ⟨_, rfl⟩
    · exact Or.inr ⟨_, rfl⟩

/-- C3 (counterexample): for a binding that rejects the source "x" with the
information log "bad", the error message of `compileShader` is not
"failed to compile x: bad": the log is followed by two NUL characters. -/
theorem compileShader_message_not_verbatim :
    rejectingGL.compileStatus GL_VERTEX_SHADER "x" = GL_FALSE ∧
    rejectingGL.infoLog GL_VERTEX_SHADER "x" = ['b', 'a', 'd'] ∧
    compileShader rejectingGL "x" GL_VERTEX_SHADER =
      .ret (0, some "failed to compile x: bad\x00\x00") ∧
    compileShader rejectingGL "x" GL_VERTEX_SHADER ≠
      .ret (0, some ("failed to compile " ++ "x" ++ ": " ++
        String.mk (rejectingGL.infoLog GL_VERTEX_SHADER "x"))) := by
  decide

/-- C3 (amended): `compileShader` returns the created handle with a nil error
when the compile status is not `gl.FALSE`.  When it is `gl.FALSE` and the
reported log length `n` is in 0..2^31-2, it returns handle 0 and the error
"failed to compile " + source + ": " + buffer, where the buffer has `n + 1`
characters: the first `n - 1` characters of the information log, then NUL
characters; for a log length that counts the log and its terminator the buffer
is the log followed by two NULs.  A returned error always comes with handle 0
and status `gl.FALSE`, a returned nil error with the created handle and another
status. -/
theorem compileShader_handle_or_padded_log (gl : GLBinding) (source : String)
    (shaderType : Nat) :
    (gl.compileStatus shaderType source ≠ GL_FALSE →
      compileShader gl source shaderType = .ret (gl.createShader shaderType, none)) ∧
    (∀ n : Nat, gl.compileStatus shaderType source = GL_FALSE →
      gl.infoLogLength shaderType source = (n : Int) → n < 2 ^ 31 - 1 →
      compileShader gl source shaderType =
        .ret (0, some ("failed to compile " ++ source ++ ": " ++
          String.mk ((gl.infoLog shaderType source).take (n - 1) ++
            List.replicate (n + 1 - min (gl.infoLog shaderType source).length (n - 1))
              '\x00')))) ∧
    (∀ n : Nat, gl.compileStatus shaderType source = GL_FALSE →
      gl.infoLogLength shaderType source = (n : Int) → n < 2 ^ 31 - 1 →
      n = (gl.infoLog shaderType source).length + 1 →
      compileShader gl source shaderType =
        .ret (0, some ("failed to compile " ++ source ++ ": " ++
          String.mk (gl.infoLog shaderType source ++ ['\x00', '\x00'])))) ∧
    (∀ h e, compileShader gl source shaderType = .ret (h, some e) →
      h = 0 ∧ gl.compileStatus shaderType source = GL_FALSE) ∧
    (∀ h, compileShader gl source shaderType = .ret (h, none) →
      h = gl.createShader shaderType ∧ gl.compileStatus shaderType source ≠ GL_FALSE) := by
  refine ⟨compileShader_ok gl source shaderType, ?_, ?_, ?_, ?_⟩
  · intro n hs hn hlt
    exact compileShader_failed gl source shaderType hs n hn hlt
  · intro n hs hn hlt hlen
    rw [compileShader_failed gl source shaderType hs n hn hlt]
    have h1 : n - 1 = (gl.infoLog shaderType source).length := by omega
    have h2 : n + 1 - min (gl.infoLog shaderType source).length (n - 1) = 2 := by
      rw [h1, Nat.min_self]; omega
    rw [h2, h1, List.take_length]
    rfl
  · intro h e hr
    by_cases hs : gl.compileStatus shaderType source = GL_FALSE
    · rcases compileShader_rejected gl source shaderType hs with ⟨p, hp⟩ | ⟨e', he⟩
      · rw [hp] at hr; cases hr
      · rw [he] at hr
        cases hr
        exact ⟨rfl, hs⟩
    · rw [compileShader_ok gl source shaderType hs] at hr
      cases hr
  · intro h hr
    by_cases hs : gl.compileStatus shaderType source = GL_FALSE
    · rcases compileShader_rejected gl source shaderType hs with ⟨p, hp⟩ | ⟨e', he⟩
      · rw [hp] at hr; cases hr
      · rw [he] at hr; cases hr
    · rw [compileShader_ok gl source shaderType hs] at hr
      cases hr
      exact ⟨rfl, hs⟩

/-- C4 (counterexample): with a binding whose compiler accepts both shaders
and whose linker reports failure, `newProgram` does not panic: it returns the
program handle. -/
theorem newProgram_returns_unlinked_program :
    unlinkableGL.linkStatus "v" "f" = GL_FALSE ∧
    newProgram unlinkableGL "v" "f" =
      .ret (3, [.attachShader 3 1, .attachShader 3 2, .linkProgram 3,
        .deleteShader 1, .deleteShader 2]) := by
  decide

/-- C4 (amended): `newProgram` panics when the vertex shader or the fragment
shader fails to compile, and returns a handle only when both compiled.  The
link status is not read: when both shaders compile, `newProgram` attaches
them, links, deletes them and returns the created program handle, whatever
the link status is. -/
theorem newProgram_panics_on_compile_error (gl : GLBinding)
    (vertexShaderSource fragmentShaderSource : String) :
    (gl.compileStatus GL_VERTEX_SHADER vertexShaderSource = GL_FALSE →
      ∃ msg, newProgram gl vertexShaderSource fragmentShaderSource = .panic msg) ∧
    (gl.compileStatus GL_FRAGMENT_SHADER fragmentShaderSource = GL_FALSE →
      ∃ msg, newProgram gl vertexShaderSource fragmentShaderSource = .panic msg) ∧
    (gl.compileStatus GL_VERTEX_SHADER vertexShaderSource ≠ GL_FALSE →
      gl.compileStatus GL_FRAGMENT_SHADER fragmentShaderSource ≠ GL_FALSE →
      newProgram gl vertexShaderSource fragmentShaderSource =
        .ret (gl.createProgram,
          [.attachShader gl.createProgram (gl.createShader GL_VERTEX_SHADER),
           .attachShader gl.createProgram (gl.createShader GL_FRAGMENT_SHADER),
           .linkProgram gl.createProgram,
           .deleteShader (gl.createShader GL_VERTEX_SHADER),
           .deleteShader (gl.createShader GL_FRAGMENT_SHADER)])) ∧
    (∀ prog calls, newProgram gl vertexShaderSource fragmentShaderSource = .ret (prog, calls) →
      gl.compileStatus GL_VERTEX_SHADER vertexShaderSource ≠ GL_FALSE ∧
      gl.compileStatus GL_FRAGMENT_SHADER fragmentShaderSource ≠ GL_FALSE ∧
      prog = gl.createProgram) := by
  have hv : gl.compileStatus GL_VERTEX_SHADER vertexShaderSource = GL_FALSE →
      ∃ msg, newProgram gl vertexShaderSource fragmentShaderSource = .panic msg := by
    intro hs
    unfold newProgram
    rcases compileShader_rejected gl vertexShaderSource GL_VERTEX_SHADER hs with
      ⟨p, hp⟩ | ⟨e, he⟩
    · rw [hp]; exact ⟨p, rfl⟩
    · rw [he]; exact ⟨e, rfl⟩
  have hf : gl.compileStatus GL_FRAGMENT_SHADER fragmentShaderSource = GL_FALSE →
      ∃ msg, newProgram gl vertexShaderSource fragmentShaderSource = .panic msg := by
    intro hs
    by_cases hvs : gl.compileStatus GL_VERTEX_SHADER vertexShaderSource = GL_FALSE
    · exact hv hvs
    · unfold newProgram
      rw [compileShader_ok gl vertexShaderSource GL_VERTEX_SHADER hvs]
      rcases compileShader_rejected gl fragmentShaderSource GL_FRAGMENT_SHADER hs with
        ⟨p, hp⟩ | ⟨e, he⟩
      · rw [hp]; exact ⟨p, rfl⟩
      · rw [he]; exact ⟨e, rfl⟩
  have hok : gl.compileStatus GL_VERTEX_SHADER vertexShaderSource ≠ GL_FALSE →
      gl.compileStatus GL_FRAGMENT_SHADER fragmentShaderSource ≠ GL_FALSE →
      newProgram gl vertexShaderSource fragmentShaderSource =
        .ret (gl.createProgram,
          [.attachShader gl.createProgram (gl.createShader GL_VERTEX_SHADER),
           .attachShader gl.createProgram (gl.createShader GL_FRAGMENT_SHADER),
           .linkProgram gl.createProgram,
           .deleteShader (gl.createShader GL_VERTEX_SHADER),
           .deleteShader (gl.createShader GL_FRAGMENT_SHADER)]) := by
    intro h1 h2
    unfold newProgram
    rw [compileShader_ok gl vertexShaderSource GL_VERTEX_SHADER h1,
      compileShader_ok gl fragmentShaderSource GL_FRAGMENT_SHADER h2]
  refine ⟨hv, hf, hok, ?_⟩
  intro prog calls hr
  by_cases h1 : gl.compileStatus GL_VERTEX_SHADER vertexShaderSource = GL_FALSE
  · obtain ⟨m, hm⟩ := hv h1
    rw [hm] at hr; cases hr
  · by_cases h2 : gl.compileStatus GL_FRAGMENT_SHADER fragmentShaderSource = GL_FALSE
    · obtain ⟨m, hm⟩ := hf h2
      rw [hm] at hr; cases hr
    · rw [hok h1 h2] at hr
      cases hr
      exact ⟨h1, h2, rfl⟩

/-! ## Theorems: the FPS counter -/

theorem fps_printed_prefix (events : List FpsEvent) :
    ∀ s : FpsState, ∃ more, (events.foldl fpsSelect s).printed = s.printed ++ more := by
  induction events with
  | nil => intro s; exact ⟨[], by simp⟩
  | cons e es ih =>
    intro s
    obtain ⟨more, hm⟩ := ih (fpsSelect s e)
    cases e
    · exact ⟨more, by simpa [fpsSelect] using hm⟩
    · exact ⟨s.frames :: more, by simpa [fpsSelect] using hm⟩

theorem fps_frames_only (w : List FpsEvent) (hw : ∀ e ∈ w, e = FpsEvent.frame) :
    ∀ s : FpsState, w.foldl fpsSelect s = { frames := s.frames + w.length, printed := s.printed } := by
  induction w with
  | nil => intro s; rfl
  | cons e es ih =>
    intro s
    have he : e = FpsEvent.frame := hw e (List.mem_cons_self _ _)
    subst he
    rw [List.foldl_cons, ih (fun x hx => hw x (List.mem_cons_of_mem _ hx))]
    simp [fpsSelect]
    omega

theorem fps_printed_length (events : List FpsEvent) :
    ∀ s : FpsState,
      (events.foldl fpsSelect s).printed.length = s.printed.length + ticks events := by
  induction events with
  | nil => intro s; simp [ticks]
  | cons e es ih =>
    intro s
    rw [List.foldl_cons, ih]
    cases e <;> simp [fpsSelect, ticks, List.count_cons] <;> omega

theorem fps_conservation (events : List FpsEvent) :
    ∀ s : FpsState,
      (events.foldl fpsSelect s).printed.sum + (events.foldl fpsSelect s).frames =
        s.printed.sum + s.frames + frameSignals events := by
  induction events with
  | nil => intro s; simp [frameSignals]
  | cons e es ih =>
    intro s
    rw [List.foldl_cons, ih]
    cases e <;> simp [fpsSelect, frameSignals, List.count_cons] <;> omega

theorem fps_after_tick (pre : List FpsEvent) (s : FpsState) :
    ((pre ++ [FpsEvent.second]).foldl fpsSelect s).frames = 0 := by
  rw [List.foldl_append]
  simp [fpsSelect]

theorem getElem?_length_snoc {α : Type} (a : α) (more : List α) :
    ∀ (l : List α) (n : Nat), n = l.length → (l ++ a :: more)[n]? = some a := by
  intro l
  induction l with
  | nil => intro n hn; subst hn; simp
  | cons b l ih =>
    intro n hn
    subst hn
    simpa using ih l.length rfl

theorem fps_window (pre w post : List FpsEvent) (hw : ∀ e ∈ w, e = FpsEvent.frame)
    (hpre : pre = [] ∨ ∃ p, pre = p ++ [FpsEvent.second]) :
    ((pre ++ w ++ FpsEvent.second :: post).foldl fpsSelect { frames := 0, printed := [] }).printed[
      ticks pre]? = some w.length := by
  have h0 : (pre.foldl fpsSelect { frames := 0, printed := [] }).frames = 0 := by
    rcases hpre with h | ⟨p, h⟩
    · subst h; rfl
    · subst h; exact fps_after_tick p _
  have hlen := fps_printed_length pre { frames := 0, printed := [] }
  simp only [List.length_nil, Nat.zero_add] at hlen
  rw [List.foldl_append, List.foldl_append, List.foldl_cons, fps_frames_only w hw]
  obtain ⟨more, hm⟩ := fps_printed_prefix post
    (fpsSelect { frames := (pre.foldl fpsSelect { frames := 0, printed := [] }).frames + w.length,
                 printed := (pre.foldl fpsSelect { frames := 0, printed := [] }).printed }
      FpsEvent.second)
  rw [hm]
  simp only [fpsSelect, h0, Nat.zero_add, List.append_assoc, List.singleton_append]
  exact getElem?_length_snoc _ _ _ _ hlen.symm

/-- C5: for the counter goroutine of `makeFPSCounter` and of `startFPSCounter`
run over any event sequence from `frames = 0`: whenever the sequence is
`pre ++ w ++ second :: post` with `w` made of frame signals only and `pre`
empty or ending in a tick, the number printed at that tick (the print of index
`ticks pre`) is the number `w.length` of frame signals received since the
previous tick, and `frames` is 0 right after the tick.  For every event
sequence there is one print per tick, and the printed numbers plus the current
value of `frames` add up to the number of frame signals received: no frame is
counted twice and none is dropped. -/
theorem fpsCounter_counts_each_window (pre w post : List FpsEvent)
    (hw : ∀ e ∈ w, e = FpsEvent.frame)
    (hpre : pre = [] ∨ ∃ p, pre = p ++ [FpsEvent.second]) :
    (makeFPSCounter (pre ++ w ++ FpsEvent.second :: post)).printed[ticks pre]? = some w.length ∧
    (startFPSCounter (pre ++ w ++ FpsEvent.second :: post)).printed[ticks pre]? = some w.length ∧
    (makeFPSCounter (pre ++ w ++ [FpsEvent.second])).frames = 0 ∧
    (startFPSCounter (pre ++ w ++ [FpsEvent.second])).frames = 0 ∧
    (∀ events : List FpsEvent,
      (makeFPSCounter events).printed.length = ticks events ∧
      (startFPSCounter events).printed.length = ticks events ∧
      (makeFPSCounter events).printed.sum + (makeFPSCounter events).frames =
        frameSignals events ∧
      (startFPSCounter events).printed.sum + (startFPSCounter events).frames =
        frameSignals events) := by
  refine ⟨fps_window pre w post hw hpre, fps_window pre w post hw hpre,
    fps_after_tick _ _, fps_after_tick _ _, ?_⟩
  intro events
  have h1 := fps_printed_length events { frames := 0, printed := [] }
  have h2 := fps_conservation events { frames := 0, printed := [] }
  simp only [List.length_nil, Nat.zero_add, List.sum_nil] at h1 h2
  exact ⟨h1, h1, h2, h2⟩

/-- C5 (instance): three frames, a tick, one frame, a tick, two frames: the
second print (index 1) is 1, the number of frames between the two ticks. -/
theorem fpsCounter_counts_each_window_witness :
    (makeFPSCounter ([FpsEvent.frame, .frame, .frame, .second] ++ [FpsEvent.frame] ++
      FpsEvent.second :: [.frame, .frame])).printed = [3, 1] ∧
    (makeFPSCounter ([FpsEvent.frame, .frame, .frame, .second] ++ [FpsEvent.frame] ++
      FpsEvent.second :: [.frame, .frame])).printed[
        ticks [FpsEvent.frame, .frame, .frame, .second]]? = some [FpsEvent.frame].length :=
  ⟨by decide,
   (fpsCounter_counts_each_window [.frame, .frame, .frame, .second] [.frame] [.frame, .frame]
      (by decide) (Or.inr ⟨[.frame, .frame, .frame], rfl⟩)).1⟩

/-! ## Theorems: error handling of the Metal examples -/

theorem movingTriangle_run_ending (env : MetalEnv) :
    (MtlMovingTriangle.run env).2 =
      match env.createSystemDefaultDevice with
      | some e => .returned (some e)
      | none =>
      match env.glfwInit with
      | some e => .returned (some e)
      | none =>
      match env.createWindow with
      | some e => .returned (some e)
      | none =>
      match env.makeLibrary with
      | some e => .returned (some e)
      | none =>
      match env.makeVertexFunction with
      | some e => .returned (some e)
      | none =>
      match env.makeFragmentFunction with
      | some e => .returned (some e)
      | none =>
      match env.makeRenderPipelineState with
      | some e => .returned (some e)
      | none =>
        (frameLoop (fun k => movingTriangleFrame (env.nextDrawable k)) 0 env.shouldClose).2 := by
  unfold MtlMovingTriangle.run
  cases env.createSystemDefaultDevice <;> simp only []
  cases env.glfwInit <;> simp only []
  cases env.createWindow <;> simp only []
  cases env.makeLibrary <;> simp only []
  cases env.makeVertexFunction <;> simp only []
  cases env.makeFragmentFunction <;> simp only []
  cases env.makeRenderPipelineState <;> simp only []
  rcases frameLoop (fun k => movingTriangleFrame (env.nextDrawable k)) 0 env.shouldClose with
    ⟨evs, fin⟩
  cases fin <;> rfl

theorem cube_run_ending (env : MetalEnv) :
    (MtlCube.run env).2 =
      match env.createSystemDefaultDevice with
      | some e => .returned (some e)
      | none =>
      match env.glfwInit with
      | some e => .returned (some e)
      | none =>
      match env.createWindow with
      | some e => .returned (some e)
      | none =>
      match env.osOpen with
      | some e => .returned (some ("texture \"diamond_ore.png\" not found on disk: " ++ e))
      | none =>
      match env.imageDecode with
      | some e => .returned (some e)
      | none =>
      match imageToNRGBA env.texture with
      | .panic p => .panicked p
      | .ret nrgba =>
      if nrgba.Pix.length = 0 then
        .panicked "runtime error: index out of range [0] with length 0"
      else
      match env.makeLibrary with
      | some e => .returned (some e)
      | none =>
      match env.makeVertexFunction with
      | some e => .returned (some e)
      | none =>
      match env.makeFragmentFunction with
      | some e => .returned (some e)
      | none =>
      match env.makeRenderPipelineState with
      | some e => .returned (some e)
      | none =>
        (frameLoop (fun k => cubeFrame (env.nextDrawable k)) 0 env.shouldClose).2 := by
  unfold MtlCube.run
  cases env.createSystemDefaultDevice <;> simp only []
  cases env.glfwInit <;> simp only []
  cases env.createWindow <;> simp only []
  cases env.osOpen <;> simp only []
  cases env.imageDecode <;> simp only []
  cases imageToNRGBA env.texture <;> simp only []
  split
  · rfl
  cases env.makeLibrary <;> simp only []
  cases env.makeVertexFunction <;> simp only []
  cases env.makeFragmentFunction <;> simp only []
  cases env.makeRenderPipelineState <;> simp only []
  rcases frameLoop (fun k => cubeFrame (env.nextDrawable k)) 0 env.shouldClose with
    ⟨evs, fin⟩
  cases fin <;> rfl

theorem mainOf_ending (r : List Ev × Ending) :
    (∀ e, r.2 = .returned (some e) → mainOf r = .fatal e) ∧
    (∀ p, r.2 = .panicked p → mainOf r = .panic p) ∧
    (r.2 = .returned none → mainOf r = .ok) := by
  unfold mainOf
  refine ⟨?_, ?_, ?_⟩
  · intro e h; rw [h]
  · intro p h; rw [h]
  · intro h; rw [h]

theorem frameLoop_no_error (frame : Nat → List Ev × Option String) :
    ∀ (answers : List Bool) (k : Nat) (e : String),
      (frameLoop frame k answers).2 ≠ .returned (some e) := by
  intro answers
  induction answers with
  | nil => intro k e h; simp [frameLoop] at h
  | cons b rest ih =>
    intro k e h
    cases b with
    | true => simp [frameLoop] at h
    | false =>
      simp only [frameLoop] at h
      rcases hf : frame k with ⟨evs, _ | p⟩
      · rw [hf] at h
        exact ih (k + 1) e h
      · rw [hf] at h
        simp at h

theorem MtlInfo.yes_ret (v : Bool) : MtlInfo.yes v = .ret (if v then "yes" else "no") := by
  cases v <;> rfl

theorem MtlInfo.supported_ret (v : Bool) :
    MtlInfo.supported v = .ret (if v then "✅ supported" else "❌ unsupported") := by
  cases v <;> rfl

theorem MtlInfo.printDeviceInfo_no_panic (d : MtlInfo.Device) :
    (MtlInfo.printDeviceInfo d).2 = none := by
  simp only [MtlInfo.printDeviceInfo, MtlInfo.yes_ret, MtlInfo.supported_ret, Outcome.map,
    MtlInfo.printAll]

theorem MtlInfo.printDevices_no_panic (ds : List MtlInfo.Device) :
    (MtlInfo.printDevices ds).2 = none := by
  induction ds with
  | nil => rfl
  | cons d ds ih =>
    have hd := MtlInfo.printDeviceInfo_no_panic d
    unfold MtlInfo.printDevices
    rcases h : MtlInfo.printDeviceInfo d with ⟨ls, _ | p⟩
    · exact ih
    · rw [h] at hd; cases hd

theorem MtlInfo.run_returns_nil (deviceErr : Option String) (device : MtlInfo.Device)
    (allDevices : List MtlInfo.Device) :
    (MtlInfo.run deviceErr device allDevices).2 = .returned none := by
  unfold MtlInfo.run
  cases deviceErr with
  | some e => rfl
  | none =>
    have hd := MtlInfo.printDevices_no_panic allDevices
    rcases h : MtlInfo.printDevices allDevices with ⟨evs, _ | p⟩
    · rfl
    · rw [h] at hd; cases hd

/-- C6 (counterexample): when `mtl.CreateSystemDefaultDevice()` fails, `run` of
mtl-info prints the error and returns nil, and `main` ends normally. -/
theorem mtlInfo_run_returns_nil_on_device_error :
    MtlInfo.run (some "no Metal device") MtlInfo.sampleDevice [] =
      ([.println "no Metal device"], .returned none) ∧
    MtlInfo.main (some "no Metal device") MtlInfo.sampleDevice [] = .ok := by
  decide

/-- C6 (amended): in mtl-movingtriangle, if any setup step (default device,
GLFW init, window, shader library, function lookups, pipeline state) fails,
`run` returns a non-nil error and `main` ends in `log.Fatalln` with it; in
mtl-cube, where the texture file open and decode are setup steps too, `run`
then returns a non-nil error logged fatally by `main`, or panics; in both,
`run` returns nil only if no setup step failed.  In mtl-info, `run` returns
nil in every case: a failure of the default-device creation is printed and
`main` ends normally. -/
theorem metal_run_setup_failure_is_fatal (env : MetalEnv) :
    ((∃ e, some e ∈ MtlMovingTriangle.setupErrors env) →
      ∃ e, (MtlMovingTriangle.run env).2 = .returned (some e) ∧
        MtlMovingTriangle.main env = .fatal e) ∧
    ((MtlMovingTriangle.run env).2 = .returned none →
      ∀ x ∈ MtlMovingTriangle.setupErrors env, x = none) ∧
    ((∃ e, some e ∈ MtlCube.setupErrors env) →
      (∃ e, (MtlCube.run env).2 = .returned (some e) ∧ MtlCube.main env = .fatal e) ∨
      (∃ p, (MtlCube.run env).2 = .panicked p ∧ MtlCube.main env = .panic p)) ∧
    ((MtlCube.run env).2 = .returned none → ∀ x ∈ MtlCube.setupErrors env, x = none) ∧
    (∀ (deviceErr : Option String) (device : MtlInfo.Device) (allDevices : List MtlInfo.Device),
      (MtlInfo.run deviceErr device allDevices).2 = .returned none ∧
      MtlInfo.main deviceErr device allDevices = .ok ∧
      (∀ e, deviceErr = some e →
        MtlInfo.run deviceErr device allDevices = ([.println e], .returned none))) := by
  have hmt : (∃ e, some e ∈ MtlMovingTriangle.setupErrors env) →
      ∃ e, (MtlMovingTriangle.run env).2 = .returned (some e) := by
    rintro ⟨e, he⟩
    rw [movingTriangle_run_ending]
    simp only [MtlMovingTriangle.setupErrors, List.mem_cons, List.mem_singleton,
      List.not_mem_nil, or_false] at he
    cases h1 : env.createSystemDefaultDevice with
    | some x => exact ⟨x, rfl⟩
    | none =>
    cases h2 : env.glfwInit with
    | some x => exact ⟨x, rfl⟩
    | none =>
    cases h3 : env.createWindow with
    | some x => exact ⟨x, rfl⟩
    | none =>
    cases h4 : env.makeLibrary with
    | some x => exact ⟨x, rfl⟩
    | none =>
    cases h5 : env.makeVertexFunction with
    | some x => exact ⟨x, rfl⟩
    | none =>
    cases h6 : env.makeFragmentFunction with
    | some x => exact ⟨x, rfl⟩
    | none =>
    cases h7 : env.makeRenderPipelineState with
    | some x => exact ⟨x, rfl⟩
    | none =>
      rw [h1, h2, h3, h4, h5, h6, h7] at he
      simp at he
  have hcb : (∃ e, some e ∈ MtlCube.setupErrors env) →
      (∃ e, (MtlCube.run env).2 = .returned (some e)) ∨
      (∃ p, (MtlCube.run env).2 = .panicked p) := by
    rintro ⟨e, he⟩
    rw [cube_run_ending]
    simp only [MtlCube.setupErrors, List.mem_cons, List.mem_singleton,
      List.not_mem_nil, or_false] at he
    cases h1 : env.createSystemDefaultDevice with
    | some x => exact Or.inl ⟨x, rfl⟩
    | none =>
    cases h2 : env.glfwInit with
    | some x => exact Or.inl ⟨x, rfl⟩
    | none =>
    cases h3 : env.createWindow with
    | some x => exact Or.inl ⟨x, rfl⟩
    | none =>
    cases h3a : env.osOpen with
    | some x => exact Or.inl ⟨_, rfl⟩
    | none =>
    cases h3b : env.imageDecode with
    | some x => exact Or.inl ⟨x, rfl⟩
    | none =>
    cases imageToNRGBA env.texture with
    | panic p => exact Or.inr ⟨p, rfl⟩
    | ret nrgba =>
    simp only []
    by_cases hp : nrgba.Pix.length = 0
    · exact Or.inr ⟨_, if_pos hp⟩
    rw [if_neg hp]
    cases h4 : env.makeLibrary with
    | some x => exact Or.inl ⟨x, rfl⟩
    | none =>
    cases h5 : env.makeVertexFunction with
    | some x => exact Or.inl ⟨x, rfl⟩
    | none =>
    cases h6 : env.makeFragmentFunction with
    | some x => exact Or.inl ⟨x, rfl⟩
    | none =>
    cases h7 : env.makeRenderPipelineState with
    | some x => exact Or.inl ⟨x, rfl⟩
    | none =>
      rw [h1, h2, h3, h3a, h3b, h4, h5, h6, h7] at he
      simp at he
  refine ⟨?_, ?_, ?_, ?_, ?_⟩
  · intro h
    obtain ⟨e, he⟩ := hmt h
    exact ⟨e, he, (mainOf_ending _).1 e he⟩
  · intro hnil x hx
    cases x with
    | none => rfl
    | some e =>
      obtain ⟨e', he'⟩ := hmt ⟨e, hx⟩
      rw [hnil] at he'
      cases he'
  · intro h
    rcases hcb h with ⟨e, he⟩ | ⟨p, hp⟩
    · exact Or.inl ⟨e, he, (mainOf_ending _).1 e he⟩
    · exact Or.inr ⟨p, hp, (mainOf_ending _).2.1 p hp⟩
  · intro hnil x hx
    cases x with
    | none => rfl
    | some e =>
      rcases hcb ⟨e, hx⟩ with ⟨e', he'⟩ | ⟨p, hp⟩
      · rw [hnil] at he'; cases he'
      · rw [hnil] at hp; cases hp
  · intro deviceErr device allDevices
    have hr := MtlInfo.run_returns_nil deviceErr device allDevices
    refine ⟨hr, (mainOf_ending _).2.2 hr, ?_⟩
    intro e he
    subst he
    rfl

/-! ## Theorems: vertex data of the OpenGL example -/

/-- C7: `drawTriangle` passes `len(triangle)/3 = 6` as vertex count to
`gl.DrawArrays`, whereas `triangle` holds `len(triangle)/6 = 3` vertices under
the layout of 6 floats per vertex that its comment and `makeVao` (stride
`6*float32Size`) declare: 6 vertices of 6 floats are 36 floats, more than the
18 uploaded. -/
theorem drawTriangle_count_exceeds_vertices (gl : GLBinding) (vao program : Nat) :
    drawCounts (drawTriangle vao program) = [6] ∧
    triangle.length = 18 ∧
    triangle.length / 6 = 3 ∧
    declaredAttribs (makeVao gl triangle).2 =
      [(0, 3, 6 * float32Size, 0), (1, 3, 6 * float32Size, 3 * float32Size)] ∧
    uploadedBytes (makeVao gl triangle).2 = [3 * (6 * float32Size)] ∧
    ¬ (6 * (6 * float32Size) ≤ 4 * triangle.length) := by
  refine ⟨rfl, rfl, rfl, rfl, rfl, by decide⟩

/-- C10 (counterexample): for the empty slice `makeVao` panics in
`gl.Ptr(points)` after `gl.GenBuffers` and `gl.BindBuffer`: nothing is
uploaded, rather than `4 * 0` bytes, and no attribute is declared. -/
theorem makeVao_panics_on_empty_slice :
    makeVao unlinkableGL [] =
      (.panic "reflect: slice index out of range",
        [.genBuffers 1, .bindBuffer GL_ARRAY_BUFFER 1]) ∧
    uploadedBytes (makeVao unlinkableGL []).2 = [] ∧
    uploadedBytes (makeVao unlinkableGL []).2 ≠ [4 * ([] : List ℚ).length] ∧
    declaredAttribs (makeVao unlinkableGL []).2 = [] := by
  decide

/-- C10 (amended): for every non-empty slice `points`, `makeVao` returns the
vertex array name and uploads `4 * len(points)` bytes, that is `float32Size`
bytes per element; it declares attribute 0 as 3 floats at offset 0 and
attribute 1 as 3 floats at offset `3*float32Size = 12`, both with stride
`6*float32Size = 24`; the first attribute ends where the second starts and the
second ends at the stride.  For `triangle` the upload is 72 bytes, three
strides. -/
theorem makeVao_upload_and_layout (gl : GLBinding) (points : List ℚ) (h : points ≠ []) :
    uploadedBytes (makeVao gl points).2 = [4 * points.length] ∧
    uploadedBytes (makeVao gl points).2 = [float32Size * points.length] ∧
    declaredAttribs (makeVao gl points).2 = [(0, 3, 24, 0), (1, 3, 24, 12)] ∧
    declaredAttribs (makeVao gl points).2 =
      [(0, 3, 6 * float32Size, 0), (1, 3, 6 * float32Size, 3 * float32Size)] ∧
    0 + 3 * float32Size = 3 * float32Size ∧
    3 * float32Size + 3 * float32Size = 6 * float32Size ∧
    uploadedBytes (makeVao gl triangle).2 = [72] ∧
    72 = 3 * (6 * float32Size) ∧
    (makeVao gl points).1 = .ret gl.genVertexArray := by
  cases points with
  | nil => exact absurd rfl h
  | cons a l => exact ⟨rfl, rfl, rfl, rfl, rfl, rfl, rfl, rfl, rfl⟩

/-- C10 (instance): for `triangle`, `makeVao` returns the vertex array name and
uploads `4 * 18 = 72` bytes. -/
theorem makeVao_upload_and_layout_witness :
    triangle ≠ [] ∧
    uploadedBytes (makeVao unlinkableGL triangle).2 = [4 * triangle.length] ∧
    4 * triangle.length = 72 ∧
    (makeVao unlinkableGL triangle).1 = .ret 1 :=
  ⟨List.cons_ne_nil _ _,
   (makeVao_upload_and_layout unlinkableGL triangle (List.cons_ne_nil _ _)).1,
   rfl,
   (makeVao_upload_and_layout unlinkableGL triangle (List.cons_ne_nil _ _)).2.2.2.2.2.2.2.2⟩

/-! ## Theorems: window callbacks -/

theorem callbacks_snoc {F64 F32 : Type} (toFloat32 : F64 → F32) (u : Uniforms F32)
    (l : List (WindowEvent F64)) (e : WindowEvent F64) :
    callbacks toFloat32 u (l ++ [e]) = callback toFloat32 (callbacks toFloat32 u l) e := by
  simp [callbacks, List.foldl_append]

/-- C8: after any sequence of callback invocations, starting from
`windowSize = {800, 600}` and `pos = {0, 0}`, `windowSize` is the `int32`
conversion of the arguments of the last size callback (the initial value if
there was none) and `pos` the `float32` conversion of the arguments of the last
cursor-position callback (zero if there was none); a size callback leaves
`pos` as it is, a cursor-position callback leaves `windowSize` as it is, and a
framebuffer-size callback leaves both. -/
theorem callbacks_last_value_wins {F64 F32 : Type} (toFloat32 : F64 → F32) (zero : F32)
    (fb : Int × Int) (events : List (WindowEvent F64)) :
    (callbacks toFloat32 (Uniforms.initial zero fb) events).windowSize =
      (match (events.filterMap sizeArgs).getLast? with
        | some (width, height) => (toInt32 width, toInt32 height)
        | none => (800, 600)) ∧
    (callbacks toFloat32 (Uniforms.initial zero fb) events).pos =
      (match (events.filterMap cursorArgs).getLast? with
        | some (x, y) => (toFloat32 x, toFloat32 y)
        | none => (zero, zero)) ∧
    (∀ (u : Uniforms F32) (width height : Int),
      (callback toFloat32 u (.size width height)).pos = u.pos) ∧
    (∀ (u : Uniforms F32) (x y : F64),
      (callback toFloat32 u (.cursorPos x y)).windowSize = u.windowSize) ∧
    (∀ (u : Uniforms F32) (width height : Int),
      (callback toFloat32 u (.framebufferSize width height)).windowSize = u.windowSize ∧
      (callback toFloat32 u (.framebufferSize width height)).pos = u.pos) := by
  refine ⟨?_, ?_, fun _ _ _ => rfl, fun _ _ _ => rfl, fun _ _ _ => ⟨rfl, rfl⟩⟩
  · induction events using List.reverseRecOn with
    | nil => rfl
    | append_singleton l e ih =>
      rw [callbacks_snoc, filterMap_snoc]
      cases e with
      | framebufferSize width height => simpa [callback, sizeArgs] using ih
      | size width height => simp [callback, sizeArgs]
      | cursorPos x y => simpa [callback, sizeArgs] using ih
  · induction events using List.reverseRecOn with
    | nil => rfl
    | append_singleton l e ih =>
      rw [callbacks_snoc, filterMap_snoc]
      cases e with
      | framebufferSize width height => simpa [callback, cursorArgs] using ih
      | size width height => simpa [callback, cursorArgs] using ih
      | cursorPos x y => simp [callback, cursorArgs]

/-! ## Theorems: render loops -/

theorem drawsAndPresents_frames (body : List Ev) (n : Nat) :
    drawsAndPresents
        ((List.replicate n (Ev.shouldClose false :: body)).flatten ++ [Ev.shouldClose true]) =
      (List.replicate n (drawsAndPresents body)).flatten := by
  induction n with
  | zero => rfl
  | succ m ih =>
    simp only [drawsAndPresents, List.replicate_succ, List.flatten_cons, List.cons_append,
      List.append_assoc, List.filter_cons, List.filter_append] at ih ⊢
    rw [ih]
    simp [Ev.isDraw, Ev.isPresent, Ev.isFrameSignal]

theorem drawsAndPresents_append (a b : List Ev) :
    drawsAndPresents (a ++ b) = drawsAndPresents a ++ drawsAndPresents b := by
  simp [drawsAndPresents]

theorem countP_drawsAndPresents (p : Ev → Bool)
    (hp : ∀ e, p e = true → (e.isDraw || e.isPresent || e.isFrameSignal) = true)
    (l : List Ev) : l.countP p = (drawsAndPresents l).countP p := by
  rw [drawsAndPresents, List.countP_filter]
  apply List.countP_congr
  intro x _
  constructor
  · intro h
    simp only [Bool.and_eq_true]
    exact ⟨h, hp x h⟩
  · intro h
    simp only [Bool.and_eq_true] at h
    exact h.1

theorem countP_flatten_replicate (p : Ev → Bool) (l : List Ev) (n : Nat) :
    (List.replicate n l).flatten.countP p = n * l.countP p := by
  induction n with
  | zero => simp
  | succ m ih =>
    rw [List.replicate_succ, List.flatten_cons, List.countP_append, ih, Nat.succ_mul]
    omega

theorem frames_trace (setup post body dp : List Ev) (n : Nat)
    (hsetup : drawsAndPresents setup = []) (hpost : drawsAndPresents post = [])
    (hbody : drawsAndPresents body = dp) :
    drawsAndPresents (setup ++ ((List.replicate n (Ev.shouldClose false :: body)).flatten ++
      Ev.shouldClose true :: post)) = (List.replicate n dp).flatten := by
  have h1 : setup ++ ((List.replicate n (Ev.shouldClose false :: body)).flatten ++
      Ev.shouldClose true :: post) =
      setup ++ (((List.replicate n (Ev.shouldClose false :: body)).flatten ++
        [Ev.shouldClose true]) ++ post) := by
    simp
  rw [h1, drawsAndPresents_append, drawsAndPresents_append, drawsAndPresents_frames, hsetup,
    hpost, hbody]
  simp

theorem frames_counts (trace dp : List Ev) (n : Nat)
    (h : drawsAndPresents trace = (List.replicate n dp).flatten) :
    trace.countP Ev.isDraw = n * dp.countP Ev.isDraw ∧
    trace.countP Ev.isPresent = n * dp.countP Ev.isPresent ∧
    trace.countP Ev.isFrameSignal = n * dp.countP Ev.isFrameSignal := by
  refine ⟨?_, ?_, ?_⟩
  · rw [countP_drawsAndPresents Ev.isDraw (fun e he => by simp [he]), h,
      countP_flatten_replicate]
  · rw [countP_drawsAndPresents Ev.isPresent (fun e he => by simp [he]), h,
      countP_flatten_replicate]
  · rw [countP_drawsAndPresents Ev.isFrameSignal (fun e he => by simp [he]), h,
      countP_flatten_replicate]

theorem frameLoop_frames (frame : Nat → List Ev × Option String) (body : List Ev) :
    ∀ (n k : Nat) (rest : List Bool),
      (∀ i, i < n → frame (k + i) = (body, none)) →
      frameLoop frame k (List.replicate n false ++ true :: rest) =
        ((List.replicate n (Ev.shouldClose false :: body)).flatten ++ [Ev.shouldClose true],
          .returned none) := by
  intro n
  induction n with
  | zero =>
    intro k rest _
    simp [frameLoop]
  | succ m ih =>
    intro k rest h
    have h0 : frame k = (body, none) := by simpa using h 0 (Nat.succ_pos m)
    have hrest : ∀ i, i < m → frame (k + 1 + i) = (body, none) := by
      intro i hi
      have := h (i + 1) (Nat.succ_lt_succ hi)
      rwa [show k + (i + 1) = k + 1 + i by omega] at this
    rw [List.replicate_succ, List.cons_append]
    simp only [frameLoop, h0, ih (k + 1) rest hrest]
    simp [List.replicate_succ]

theorem newProgram_compiled (gl : GLBinding) (v f : String)
    (h1 : gl.compileStatus GL_VERTEX_SHADER v ≠ GL_FALSE)
    (h2 : gl.compileStatus GL_FRAGMENT_SHADER f ≠ GL_FALSE) :
    newProgram gl v f =
      .ret (gl.createProgram,
        [.attachShader gl.createProgram (gl.createShader GL_VERTEX_SHADER),
         .attachShader gl.createProgram (gl.createShader GL_FRAGMENT_SHADER),
         .linkProgram gl.createProgram,
         .deleteShader (gl.createShader GL_VERTEX_SHADER),
         .deleteShader (gl.createShader GL_FRAGMENT_SHADER)]) := by
  unfold newProgram
  rw [compileShader_ok gl v GL_VERTEX_SHADER h1, compileShader_ok gl f GL_FRAGMENT_SHADER h2]

theorem movingTriangle_run_frames (env : MetalEnv) (n : Nat) (rest : List Bool)
    (hsetup : ∀ x ∈ MtlMovingTriangle.setupErrors env, x = none)
    (hclose : env.shouldClose = List.replicate n false ++ true :: rest)
    (hdraw : ∀ i, i < n → env.nextDrawable i = none) :
    MtlMovingTriangle.run env =
      (Ev.println ("Metal device: " ++ env.deviceName) ::
        ((List.replicate n (Ev.shouldClose false :: movingTriangleBody)).flatten ++
          [Ev.shouldClose true, .windowDestroy, .glfwTerminate]), .returned none) := by
  simp only [MtlMovingTriangle.setupErrors, List.mem_cons, List.mem_singleton,
    List.not_mem_nil, or_false, forall_eq_or_imp, forall_eq] at hsetup
  obtain ⟨h1, h2, h3, h4, h5, h6, h7⟩ := hsetup
  have hloop := frameLoop_frames (fun k => movingTriangleFrame (env.nextDrawable k))
    movingTriangleBody n 0 rest (by
      intro i hi
      simp only [Nat.zero_add, hdraw i hi]
      rfl)
  unfold MtlMovingTriangle.run
  simp only [h1, h2, h3, h4, h5, h6, h7, hclose, hloop]
  simp

theorem cube_run_frames (env : MetalEnv) (n : Nat) (rest : List Bool) (nrgba : NRGBA)
    (hsetup : ∀ x ∈ MtlCube.setupErrors env, x = none)
    (htex : imageToNRGBA env.texture = .ret nrgba) (hpix : nrgba.Pix.length ≠ 0)
    (hclose : env.shouldClose = List.replicate n false ++ true :: rest)
    (hdraw : ∀ i, i < n → env.nextDrawable i = none) :
    MtlCube.run env =
      (Ev.println ("Metal device: " ++ env.deviceName) ::
        ((List.replicate n (Ev.shouldClose false :: cubeBody)).flatten ++
          [Ev.shouldClose true, .windowDestroy, .glfwTerminate]), .returned none) := by
  simp only [MtlCube.setupErrors, List.mem_cons, List.mem_singleton,
    List.not_mem_nil, or_false, forall_eq_or_imp, forall_eq] at hsetup
  obtain ⟨h1, h2, h3, h4, h5, h6, h7, h8, h9⟩ := hsetup
  have hloop := frameLoop_frames (fun k => cubeFrame (env.nextDrawable k))
    cubeBody n 0 rest (by
      intro i hi
      simp only [Nat.zero_add, hdraw i hi]
      rfl)
  unfold MtlCube.run
  simp only [h1, h2, h3, h4, h5, h6, h7, h8, h9, htex, hpix, if_false, hclose, hloop]
  simp

theorem glMain_frames (env : GlTriangle.Env) (n : Nat) (rest : List Bool)
    (h1 : env.glfwInit = none) (h2 : env.createWindow = none) (h3 : env.glInit = none)
    (hv : env.gl.compileStatus GL_VERTEX_SHADER GlTriangle.vertexShaderSource ≠ GL_FALSE)
    (hf : env.gl.compileStatus GL_FRAGMENT_SHADER GlTriangle.fragmentShaderSource ≠ GL_FALSE)
    (hclose : env.shouldClose = List.replicate n false ++ true :: rest) :
    GlTriangle.main env =
      ((Ev.println ("OpenGL version " ++ env.version) ::
          ([GLCall.attachShader env.gl.createProgram (env.gl.createShader GL_VERTEX_SHADER),
            .attachShader env.gl.createProgram (env.gl.createShader GL_FRAGMENT_SHADER),
            .linkProgram env.gl.createProgram,
            .deleteShader (env.gl.createShader GL_VERTEX_SHADER),
            .deleteShader (env.gl.createShader GL_FRAGMENT_SHADER)].map Ev.gl ++
           (makeVao env.gl triangle).2.map Ev.gl)) ++
        ((List.replicate n
            (Ev.shouldClose false :: glBody env.gl.genVertexArray env.gl.createProgram)).flatten ++
          [Ev.shouldClose true, .glfwTerminate]), .returned none) := by
  have hvao : (makeVao env.gl triangle).1 = .ret env.gl.genVertexArray := rfl
  have hloop := frameLoop_frames
    (fun _ => glFrame env.gl.genVertexArray env.gl.createProgram)
    (glBody env.gl.genVertexArray env.gl.createProgram) n 0 rest (fun _ _ => rfl)
  unfold GlTriangle.main GlTriangle.initGlfw
  simp only [h1, h2, h3, newProgram_compiled env.gl _ _ hv hf, hvao, hclose, hloop]
  simp


/-- C9: for every `n`, in each graphics example whose setup has succeeded, if
`window.ShouldClose()` answers `false` n times and then `true` (and, in the
Metal examples, `ml.NextDrawable()` succeeds in these n iterations), the
program leaves its loop normally and its events are: the setup (no draw,
present or frame signal), then n times the loop body, then the closing answer
and the deferred calls.  Each body holds one draw call followed by one present
or swap and, in the Metal examples, one frame signal; hence there are exactly
n draw calls, n presents and (Metal) n frame signals, none of them after the
window reported closed. -/
theorem render_loop_one_draw_one_present_per_frame (n : Nat) (rest : List Bool) :
    (∀ env : GlTriangle.Env,
      env.glfwInit = none → env.createWindow = none → env.glInit = none →
      env.gl.compileStatus GL_VERTEX_SHADER GlTriangle.vertexShaderSource ≠ GL_FALSE →
      env.gl.compileStatus GL_FRAGMENT_SHADER GlTriangle.fragmentShaderSource ≠ GL_FALSE →
      env.shouldClose = List.replicate n false ++ true :: rest →
      (GlTriangle.main env).2 = .returned none ∧
      (∃ setup, drawsAndPresents setup = [] ∧ closeAnswers setup = [] ∧
        (GlTriangle.main env).1 = setup ++ ((List.replicate n
          (Ev.shouldClose false :: glBody env.gl.genVertexArray env.gl.createProgram)).flatten ++
          [Ev.shouldClose true, .glfwTerminate])) ∧
      drawsAndPresents (GlTriangle.main env).1 =
        (List.replicate n [Ev.gl (.drawArrays GL_TRIANGLES 0 6), Ev.swapBuffers]).flatten ∧
      (GlTriangle.main env).1.countP Ev.isDraw = n ∧
      (GlTriangle.main env).1.countP Ev.isPresent = n) ∧
    (∀ (env : MetalEnv) (nrgba : NRGBA),
      (∀ x ∈ MtlCube.setupErrors env, x = none) →
      imageToNRGBA env.texture = .ret nrgba → nrgba.Pix.length ≠ 0 →
      env.shouldClose = List.replicate n false ++ true :: rest →
      (∀ i, i < n → env.nextDrawable i = none) →
      (MtlCube.run env).2 = .returned none ∧
      (MtlCube.run env).1 = Ev.println ("Metal device: " ++ env.deviceName) ::
        ((List.replicate n (Ev.shouldClose false :: cubeBody)).flatten ++
          [Ev.shouldClose true, .windowDestroy, .glfwTerminate]) ∧
      drawsAndPresents (MtlCube.run env).1 =
        (List.replicate n
          [Ev.drawIndexedPrimitives 3, Ev.presentDrawable, Ev.frameSignal]).flatten ∧
      (MtlCube.run env).1.countP Ev.isDraw = n ∧
      (MtlCube.run env).1.countP Ev.isPresent = n ∧
      (MtlCube.run env).1.countP Ev.isFrameSignal = n) ∧
    (∀ env : MetalEnv,
      (∀ x ∈ MtlMovingTriangle.setupErrors env, x = none) →
      env.shouldClose = List.replicate n false ++ true :: rest →
      (∀ i, i < n → env.nextDrawable i = none) →
      (MtlMovingTriangle.run env).2 = .returned none ∧
      (MtlMovingTriangle.run env).1 = Ev.println ("Metal device: " ++ env.deviceName) ::
        ((List.replicate n (Ev.shouldClose false :: movingTriangleBody)).flatten ++
          [Ev.shouldClose true, .windowDestroy, .glfwTerminate]) ∧
      drawsAndPresents (MtlMovingTriangle.run env).1 =
        (List.replicate n
          [Ev.drawPrimitives 0 3, Ev.presentDrawable, Ev.frameSignal]).flatten ∧
      (MtlMovingTriangle.run env).1.countP Ev.isDraw = n ∧
      (MtlMovingTriangle.run env).1.countP Ev.isPresent = n ∧
      (MtlMovingTriangle.run env).1.countP Ev.isFrameSignal = n) := by
  refine ⟨?_, ?_, ?_⟩
  · intro env h1 h2 h3 hv hf hclose
    have hmain := glMain_frames env n rest h1 h2 h3 hv hf hclose
    have htrace := frames_trace
      (Ev.println ("OpenGL version " ++ env.version) ::
        ([GLCall.attachShader env.gl.createProgram (env.gl.createShader GL_VERTEX_SHADER),
          .attachShader env.gl.createProgram (env.gl.createShader GL_FRAGMENT_SHADER),
          .linkProgram env.gl.createProgram,
          .deleteShader (env.gl.createShader GL_VERTEX_SHADER),
          .deleteShader (env.gl.createShader GL_FRAGMENT_SHADER)].map Ev.gl ++
         (makeVao env.gl triangle).2.map Ev.gl))
      [Ev.glfwTerminate]
      (glBody env.gl.genVertexArray env.gl.createProgram)
      [Ev.gl (.drawArrays GL_TRIANGLES 0 6), Ev.swapBuffers] n rfl rfl rfl
    have hcount := frames_counts _ _ n htrace
    rw [hmain]
    refine ⟨rfl, ⟨_, ?_, ?_, rfl⟩, htrace, ?_, ?_⟩
    · rfl
    · rfl
    · simpa [Ev.isDraw] using hcount.1
    · simpa [Ev.isDraw, Ev.isPresent] using hcount.2.1
  · intro env nrgba hsetup htex hpix hclose hdraw
    have hrun := cube_run_frames env n rest nrgba hsetup htex hpix hclose hdraw
    have htrace := frames_trace [Ev.println ("Metal device: " ++ env.deviceName)]
      [Ev.windowDestroy, Ev.glfwTerminate] cubeBody
      [Ev.drawIndexedPrimitives 3, Ev.presentDrawable, Ev.frameSignal] n rfl rfl rfl
    have hcount := frames_counts _ _ n htrace
    rw [hrun]
    refine ⟨rfl, rfl, htrace, ?_, ?_, ?_⟩
    · simpa [Ev.isDraw] using hcount.1
    · simpa [Ev.isDraw, Ev.isPresent] using hcount.2.1
    · simpa [Ev.isDraw, Ev.isPresent, Ev.isFrameSignal] using hcount.2.2
  · intro env hsetup hclose hdraw
    have hrun := movingTriangle_run_frames env n rest hsetup hclose hdraw
    have htrace := frames_trace [Ev.println ("Metal device: " ++ env.deviceName)]
      [Ev.windowDestroy, Ev.glfwTerminate] movingTriangleBody
      [Ev.drawPrimitives 0 3, Ev.presentDrawable, Ev.frameSignal] n rfl rfl rfl
    have hcount := frames_counts _ _ n htrace
    rw [hrun]
    refine ⟨rfl, rfl, htrace, ?_, ?_, ?_⟩
    · simpa [Ev.isDraw] using hcount.1
    · simpa [Ev.isDraw, Ev.isPresent] using hcount.2.1
    · simpa [Ev.isDraw, Ev.isPresent, Ev.isFrameSignal] using hcount.2.2

/-- C9 (instance): with every setup step succeeding and a window that answers
false, false, true, mtl-cube and mtl-movingtriangle each issue two draw calls,
each followed by a present and a frame signal, and the OpenGL example two draw
calls, each followed by a buffer swap. -/
theorem render_loop_one_draw_one_present_per_frame_witness :
    twoFramesEnv.shouldClose = List.replicate 2 false ++ true :: [] ∧
    drawsAndPresents (MtlCube.run twoFramesEnv).1 =
      [Ev.drawIndexedPrimitives 3, Ev.presentDrawable, Ev.frameSignal,
       Ev.drawIndexedPrimitives 3, Ev.presentDrawable, Ev.frameSignal] ∧
    drawsAndPresents (MtlMovingTriangle.run twoFramesEnv).1 =
      [Ev.drawPrimitives 0 3, Ev.presentDrawable, Ev.frameSignal,
       Ev.drawPrimitives 0 3, Ev.presentDrawable, Ev.frameSignal] ∧
    GlTriangle.twoFramesEnv.shouldClose = List.replicate 2 false ++ true :: [] ∧
    drawsAndPresents (GlTriangle.main GlTriangle.twoFramesEnv).1 =
      [Ev.gl (.drawArrays GL_TRIANGLES 0 6), Ev.swapBuffers,
       Ev.gl (.drawArrays GL_TRIANGLES 0 6), Ev.swapBuffers] ∧
    (MtlCube.run twoFramesEnv).2 = .returned none ∧
    (MtlMovingTriangle.run twoFramesEnv).2 = .returned none ∧
    (GlTriangle.main GlTriangle.twoFramesEnv).2 = .returned none :=
  ⟨rfl,
   ((render_loop_one_draw_one_present_per_frame 2 []).2.1 twoFramesEnv
      { Pix := [5, 7, 0, 255, 6, 7, 0, 255], Stride := 8,
        Rect := { minX := 0, minY := 0, maxX := 2, maxY := 1 } }
      (by decide) (by set_option maxRecDepth 8000 in decide) (by decide) rfl
      (fun _ _ => rfl)).2.2.1,
   ((render_loop_one_draw_one_present_per_frame 2 []).2.2 twoFramesEnv
      (by decide) rfl (fun _ _ => rfl)).2.2.1,
   rfl,
   ((render_loop_one_draw_one_present_per_frame 2 []).1 GlTriangle.twoFramesEnv
      rfl rfl rfl (by decide) (by decide) rfl).2.2.1,
   ((render_loop_one_draw_one_present_per_frame 2 []).2.1 twoFramesEnv
      { Pix := [5, 7, 0, 255, 6, 7, 0, 255], Stride := 8,
        Rect := { minX := 0, minY := 0, maxX := 2, maxY := 1 } }
      (by decide) (by set_option maxRecDepth 8000 in decide) (by decide) rfl
      (fun _ _ => rfl)).1,
   ((render_loop_one_draw_one_present_per_frame 2 []).2.2 twoFramesEnv
      (by decide) rfl (fun _ _ => rfl)).1,
   ((render_loop_one_draw_one_present_per_frame 2 []).1 GlTriangle.twoFramesEnv
      rfl rfl rfl (by decide) (by decide) rfl).1⟩

/-! ## Theorems: mtl-info helpers and textures -/

/-- C12: for every boolean `v`, `yes(v)` returns "yes" if `v` is true and "no"
otherwise, `supported(v)` returns "✅ supported" if `v` is true and
"❌ unsupported" otherwise; neither reaches its `panic("unreachable")`, and the
results for `true` and `false` differ. -/
theorem yes_supported_total (v : Bool) :
    MtlInfo.yes v = .ret (if v then "yes" else "no") ∧
    MtlInfo.supported v = .ret (if v then "✅ supported" else "❌ unsupported") ∧
    (∀ p, MtlInfo.yes v ≠ .panic p) ∧
    (∀ p, MtlInfo.supported v ≠ .panic p) ∧
    MtlInfo.yes true ≠ MtlInfo.yes false ∧
    MtlInfo.supported true ≠ MtlInfo.supported false := by
  refine ⟨MtlInfo.yes_ret v, MtlInfo.supported_ret v, ?_, ?_, by decide, by decide⟩
  · intro p h
    rw [MtlInfo.yes_ret] at h
    cases h
  · intro p h
    rw [MtlInfo.supported_ret] at h
    cases h

theorem length_flatten_map_const {α β : Type} (f : α → List β) (k : Nat)
    (hf : ∀ a, (f a).length = k) :
    ∀ l : List α, ((l.map f).flatten).length = l.length * k := by
  intro l
  induction l with
  | nil => simp
  | cons a l ih =>
    simp only [List.map_cons, List.flatten_cons, List.length_append, List.length_cons, hf, ih]
    rw [Nat.succ_mul]
    omega

theorem drawnPix_length (w h : Nat) (colorAt : Int → Int → Nat × Nat × Nat × Nat)
    (b : Rectangle) : (drawnPix w h colorAt b).length = h * (w * 4) := by
  unfold drawnPix
  rw [length_flatten_map_const _ (w * 4)]
  · simp
  · intro y
    rw [length_flatten_map_const _ 4]
    · simp
    · intro x
      rfl

theorem toInt64_of_range (x : Int) (h0 : -2 ^ 63 ≤ x) (h1 : x < 2 ^ 63) : toInt64 x = x := by
  unfold toInt64
  omega

theorem mul3NonNeg_ok (w h : Nat) (hw : 4 * w < 2 ^ 63) (hwh : 4 * w * h < 2 ^ 63) :
    mul3NonNeg 4 (w : Int) (h : Int) = ((4 * w * h : Nat) : Int) := by
  have hP : (4 : Int) * (w : Int) * (h : Int) = ((4 * w * h : Nat) : Int) := by push_cast; ring
  have hQ : (4 : Int) * (w : Int) = ((4 * w : Nat) : Int) := by push_cast; ring
  unfold mul3NonNeg
  rw [hP, hQ]
  rw [if_neg (by omega), if_neg (by omega), if_neg (by omega), if_neg (by omega)]

theorem makeBytes_ok (n : Nat) (hn : n ≤ 2 ^ 48) :
    makeBytes ((n : Nat) : Int) = .ret (List.replicate n 0) := by
  unfold makeBytes maxAlloc
  rw [if_neg (by omega), Int.toNat_ofNat]

theorem NewNRGBA_ok (w h : Nat) (hw : 4 * w < 2 ^ 63) (hh : h < 2 ^ 63)
    (hwh : 4 * w * h ≤ 2 ^ 48) :
    NewNRGBA { minX := 0, minY := 0, maxX := w, maxY := h } =
      .ret { Pix := List.replicate (4 * w * h) 0, Stride := 4 * (w : Int),
             Rect := { minX := 0, minY := 0, maxX := w, maxY := h } } := by
  have hDx : ({ minX := 0, minY := 0, maxX := w, maxY := h } : Rectangle).Dx = (w : Int) := by
    unfold Rectangle.Dx
    rw [toInt64_of_range] <;> simp <;> omega
  have hDy : ({ minX := 0, minY := 0, maxX := w, maxY := h } : Rectangle).Dy = (h : Int) := by
    unfold Rectangle.Dy
    rw [toInt64_of_range] <;> simp <;> omega
  have hS : toInt64 (4 * (w : Int)) = 4 * (w : Int) := by
    rw [toInt64_of_range] <;> omega
  unfold NewNRGBA
  simp only [hDx, hDy, mul3NonNeg_ok w h hw (by omega), hS]
  rw [if_neg (by omega), makeBytes_ok _ hwh]

theorem originRect_dims (w h : Nat) (hw : 4 * w < 2 ^ 63) (hh : h < 2 ^ 63) :
    ({ minX := 0, minY := 0, maxX := w, maxY := h } : Rectangle).Dx = (w : Int) ∧
    ({ minX := 0, minY := 0, maxX := w, maxY := h } : Rectangle).Dy = (h : Int) := by
  constructor
  · unfold Rectangle.Dx
    rw [toInt64_of_range] <;> simp <;> omega
  · unfold Rectangle.Dy
    rw [toInt64_of_range] <;> simp <;> omega

theorem imageToNRGBA_converted (b : Rectangle) (colorAt : Int → Int → Nat × Nat × Nat × Nat)
    (w h : Nat) (hW : b.maxX - b.minX = (w : Int)) (hH : b.maxY - b.minY = (h : Int))
    (hw : 4 * w < 2 ^ 63) (hh : h < 2 ^ 63) (hwh : 4 * w * h ≤ 2 ^ 48) :
    ∃ pix, imageToNRGBA (.other b colorAt) =
        .ret { Pix := pix, Stride := 4 * (w : Int),
               Rect := { minX := 0, minY := 0, maxX := w, maxY := h } } ∧
      pix.length = 4 * w * h := by
  have hDx : b.Dx = (w : Int) := by
    unfold Rectangle.Dx
    rw [hW, toInt64_of_range] <;> omega
  have hDy : b.Dy = (h : Int) := by
    unfold Rectangle.Dy
    rw [hH, toInt64_of_range] <;> omega
  have hrect : imageRect 0 0 (w : Int) (h : Int) =
      { minX := 0, minY := 0, maxX := w, maxY := h } := by
    unfold imageRect
    rw [if_neg (by omega), if_neg (by omega), if_neg (by omega), if_neg (by omega)]
  obtain ⟨hoX, hoY⟩ := originRect_dims w h hw hh
  unfold imageToNRGBA
  simp only [hDx, hDy, hrect, NewNRGBA_ok w h hw hh hwh]
  by_cases hc : b.minX < b.maxX ∧ b.minY < b.maxY
  · rw [if_pos hc]
    simp only [hoX, hoY, Int.toNat_ofNat]
    refine ⟨_, rfl, ?_⟩
    rw [drawnPix_length]
    ring
  · rw [if_neg hc]
    exact ⟨_, rfl, by simp⟩

theorem imageToNRGBA_nrgba (img : NRGBA) : imageToNRGBA (.nrgba img) = .ret img := rfl

theorem imageToNRGBA_nrgba_packed (img out : NRGBA)
    (h : imageToNRGBA (.nrgba img) = .ret out) : (out.packed ↔ img.packed) := by
  have h' : Outcome.ret img = Outcome.ret out := h
  cases h'
  exact Iff.rfl

theorem imageToNRGBA_converted_packed (b : Rectangle)
    (colorAt : Int → Int → Nat × Nat × Nat × Nat) (w h : Nat)
    (hW : b.maxX - b.minX = (w : Int)) (hH : b.maxY - b.minY = (h : Int))
    (hw : 4 * w < 2 ^ 63) (hh : h < 2 ^ 63) (hwh : 4 * w * h ≤ 2 ^ 48) :
    ∃ dst, imageToNRGBA (.other b colorAt) = .ret dst ∧
      dst.Rect = { minX := 0, minY := 0, maxX := w, maxY := h } ∧
      dst.Rect.Dx = (Image.other b colorAt).Bounds.Dx ∧
      dst.Rect.Dy = (Image.other b colorAt).Bounds.Dy ∧
      dst.Stride = 4 * (w : Int) ∧
      dst.Pix.length = 4 * w * h ∧
      dst.packed := by
  obtain ⟨pix, hret, hlen⟩ := imageToNRGBA_converted b colorAt w h hW hH hw hh hwh
  obtain ⟨hoX, hoY⟩ := originRect_dims w h hw hh
  have hDx : b.Dx = (w : Int) := by
    unfold Rectangle.Dx
    rw [hW, toInt64_of_range] <;> omega
  have hDy : b.Dy = (h : Int) := by
    unfold Rectangle.Dy
    rw [hH, toInt64_of_range] <;> omega
  refine ⟨_, hret, rfl, ?_, ?_, rfl, hlen, ?_⟩
  · simp only [Image.Bounds, hoX, hDx]
  · simp only [Image.Bounds, hoY, hDy]
  · unfold NRGBA.packed
    simp only [hoX, hoY, hlen]
    constructor
    · trivial
    · push_cast
      ring

/-- C11 (counterexample): a 2 by 2 sub-image of a 4 by 4 NRGBA image is
returned as it is, with stride 16 instead of `4 * 2` and 44 pixel bytes instead
of `4 * 2 * 2`; and for a source with the bounds of an `image.Uniform`,
`imageToNRGBA` panics in `image.NewNRGBA`. -/
theorem imageToNRGBA_subimage_not_packed :
    imageToNRGBA (.nrgba subImage) = .ret subImage ∧
    subImage.Rect.Dx = 2 ∧ subImage.Rect.Dy = 2 ∧
    subImage.Stride = 16 ∧ subImage.Stride ≠ 4 * subImage.Rect.Dx ∧
    subImage.Pix.length = 44 ∧
    (subImage.Pix.length : Int) ≠ 4 * subImage.Rect.Dx * subImage.Rect.Dy ∧
    imageToNRGBA uniformImage =
      .panic "image: NewNRGBA Rectangle has huge or negative dimensions" := by
  set_option maxRecDepth 8000 in decide

theorem imageToNRGBA_hugeImage :
    imageToNRGBA hugeImage = .panic "runtime error: makeslice: len out of range" := by
  set_option maxRecDepth 8000 in decide

/-- C11 (amended): a source of dynamic type `*image.NRGBA` is returned as it
is, so the result is tightly packed exactly when the source is.  For a source
of another type with well-formed bounds of width `w` and height `h` whose
`4*w*h` pixel bytes do not exceed the allocation limit of the runtime, 2^48
bytes (and with `4*w` and `h` below 2^63), `imageToNRGBA` returns a new image
with bounds from (0,0) to (w,h), the width and height of the source, stride
`4*w` and exactly `4*w*h` pixel bytes: it is tightly packed.  Above that limit
it panics: so it does for 2^30 by 2^30 pixels. -/
theorem imageToNRGBA_packed_when_converted :
    (∀ img : NRGBA, imageToNRGBA (.nrgba img) = .ret img) ∧
    (∀ img out : NRGBA, imageToNRGBA (.nrgba img) = .ret out → (out.packed ↔ img.packed)) ∧
    (∀ (b : Rectangle) (colorAt : Int → Int → Nat × Nat × Nat × Nat) (w h : Nat),
      b.maxX - b.minX = (w : Int) → b.maxY - b.minY = (h : Int) →
      4 * w < 2 ^ 63 → h < 2 ^ 63 → 4 * w * h ≤ 2 ^ 48 →
      ∃ dst, imageToNRGBA (.other b colorAt) = .ret dst ∧
        dst.Rect = { minX := 0, minY := 0, maxX := w, maxY := h } ∧
        dst.Rect.Dx = (Image.other b colorAt).Bounds.Dx ∧
        dst.Rect.Dy = (Image.other b colorAt).Bounds.Dy ∧
        dst.Stride = 4 * (w : Int) ∧
        dst.Pix.length = 4 * w * h ∧
        dst.packed) ∧
    imageToNRGBA hugeImage = .panic "runtime error: makeslice: len out of range" :=
  ⟨imageToNRGBA_nrgba, imageToNRGBA_nrgba_packed, imageToNRGBA_converted_packed,
    imageToNRGBA_hugeImage⟩

/-- C11 (instance): a 2 by 1 image with bounds from (5,7) to (7,8) is converted
into a tightly packed image at the origin: stride 8, 8 pixel bytes. -/
theorem imageToNRGBA_packed_when_converted_witness :
    imageToNRGBA smallImage =
      .ret { Pix := [5, 7, 0, 255, 6, 7, 0, 255], Stride := 8,
             Rect := { minX := 0, minY := 0, maxX := 2, maxY := 1 } } ∧
    ∃ dst, imageToNRGBA smallImage = .ret dst ∧
      dst.Rect = { minX := 0, minY := 0, maxX := (2 : Nat), maxY := (1 : Nat) } ∧
      dst.Stride = 4 * ((2 : Nat) : Int) ∧ dst.Pix.length = 4 * 2 * 1 := by
  refine ⟨by set_option maxRecDepth 8000 in decide, ?_⟩
  obtain ⟨dst, h1, h2, _, _, h5, h6, _⟩ :=
    imageToNRGBA_packed_when_converted.2.2.1 { minX := 5, minY := 7, maxX := 7, maxY := 8 }
      (fun x y => (x.toNat, y.toNat, 0, 255)) 2 1 (by decide) (by decide) (by decide)
      (by decide) (by decide)
  exact ⟨dst, h1, h2, h5, h6⟩

end Gopen
